import Mathlib

/-!
# Sifter podcast-digest pipeline: a shallow embedding

This file embeds the core of the `pixelhop/sifter` repository in Lean 4 and
proves (or refutes) a fixed list of claims about its specification.

Conventions of the embedding:

* JavaScript numbers that carry seconds, relevance scores and similar
  quantities are embedded as rationals (`ℚ`); byte sizes are `Nat`.  No claim
  under consideration depends on floating-point rounding.
* The file system touched by the ffmpeg helpers is an explicit association
  list from paths to abstract audio files; the behaviour of the external
  `ffmpeg`/`ffprobe` binaries is an oracle (`FFmpegEnv`).
* Fallible code returns `Except String`; a thrown JS exception is an
  `Except.error` carrying the message.
* Database rows (episodes, digests, clips) are explicit records threaded
  through the worker functions; external services (download, Whisper STT,
  LLM, TTS) are oracles supplied as an environment record, and each worker
  additionally returns the list of observable side effects it performed,
  in order.

Source files embedded below:
`packages/workers/utils/ffmpeg.ts`,
`packages/workers/server/jobs/example/worker.ts` (transcription worker),
`packages/workers/server/jobs/analysis/worker.ts`,
`packages/workers/server/jobs/curation/worker.ts`,
and the digest generation worker (`stitchDigest` / `digestWorker`).
-/

namespace Sifter

/-- Seconds (and other JS numeric quantities), embedded as rationals. -/
abbrev Seconds := ℚ

/-- JS `x || y` for an optional number: `undefined` and `0` are both falsy
and fall through to the fallback. -/
def jsNumOr (x : Option ℚ) (y : ℚ) : ℚ :=
  match x with
  | none => y
  | some v => if v = 0 then y else v

/-- JS `x || y` for an optional string: `undefined` and the empty string are
both falsy and fall through to the fallback. -/
def jsStrOr (x : Option String) (y : String) : String :=
  match x with
  | none => y
  | some s => if s = "" then y else s

/-- JS `Math.round`: round half toward positive infinity. -/
def jsRound (q : ℚ) : Int :=
  Int.floor (q + 1/2)

/-- JS `String.prototype.trim`: strip leading and trailing whitespace.
(`String.trim` from core is extensionally the same but does not reduce in the
kernel, so the embedding recomputes it on the character list.) -/
def jsTrim (s : String) : String :=
  String.mk (((s.data.dropWhile Char.isWhitespace).reverse.dropWhile
    Char.isWhitespace).reverse)

/-- One step of straight insertion: insert `a` before the first element `b`
with `le a b`.  Used to model the (stable, ascending) JS `Array.sort`. -/
def insertLe {α : Type} (le : α → α → Bool) (a : α) : List α → List α
  | [] => [a]
  | b :: bs => if le a b then a :: b :: bs else b :: insertLe le a bs

/-- Stable ascending sort by the comparator `le`; models JS
`Array.prototype.sort` with a numeric comparator (and Prisma `orderBy`). -/
def jsSortBy {α : Type} (le : α → α → Bool) (l : List α) : List α :=
  l.foldr (insertLe le) []

/-!
## `packages/workers/utils/ffmpeg.ts`
-/

/-- Whisper API limit: 25 MB in bytes (`WHISPER_MAX_FILE_SIZE`). -/
def WHISPER_MAX_FILE_SIZE : Nat := 25 * 1024 * 1024

/-- Target chunk size to stay safely under the limit (`TARGET_CHUNK_SIZE`). -/
def TARGET_CHUNK_SIZE : Nat := 22 * 1024 * 1024

/-- Default chunk duration for splitting, in minutes. -/
def DEFAULT_CHUNK_DURATION_MINUTES : ℚ := 20

/-- Default chunk duration for splitting, in seconds. -/
def DEFAULT_CHUNK_DURATION_SECONDS : ℚ := DEFAULT_CHUNK_DURATION_MINUTES * 60

/-- An STT segment `{start, end, text}`; the source field `end` is a Lean
keyword and is embedded as `stop`. -/
structure TranscriptSegment where
  start : Seconds
  stop : Seconds
  text : String
deriving Repr, DecidableEq

/-- `AudioChunk`: a window of the original audio, timestamps relative to the
original timeline. -/
structure AudioChunk where
  index : Nat
  path : String
  startTime : Seconds
  endTime : Seconds
  duration : Seconds
deriving Repr, DecidableEq

/-- `TranscriptChunk` (also the shape of one STT `TranscriptionResult`). -/
structure TranscriptChunk where
  text : String
  segments : List TranscriptSegment
  language : Option String := none
  duration : Option Seconds := none
deriving Repr, DecidableEq

/-- `MergedTranscript`. -/
structure MergedTranscript where
  text : String
  segments : List TranscriptSegment
  language : String
  duration : Seconds
deriving Repr, DecidableEq

/-- `ChunkingOptions` (only the fields read by the embedded code paths). -/
structure ChunkingOptions where
  targetChunkDurationSeconds : Option Seconds := none
  overlapSeconds : Option Seconds := none
deriving Repr, DecidableEq

/-- Comparator of the segment sort in `mergeTranscriptChunks`
(`(a, b) => a.start - b.start`, i.e. ascending by `start`). -/
def segStartLe (a b : TranscriptSegment) : Bool :=
  a.start ≤ b.start

/-- `mergeTranscriptChunks(chunks, detectedLanguage)`: offset each chunk's
segment timestamps by the chunk's `startTime`, concatenate the text parts
with single spaces and `trim` the result, sort all segments by `start`
ascending (stable), and take for `duration` the running maximum (seeded
with `0`) of `chunk.startTime + (transcript.duration || chunk.duration)`. -/
def mergeTranscriptChunks (chunks : List (AudioChunk × TranscriptChunk))
    (detectedLanguage : String) : MergedTranscript :=
  let allSegments := (chunks.map (fun p => p.2.segments.map (fun s =>
    ({ start := s.start + p.1.startTime, stop := s.stop + p.1.startTime,
       text := s.text } : TranscriptSegment)))).flatten
  let textParts := chunks.map (fun p => p.2.text)
  let totalDuration := chunks.foldl
    (fun acc p => max acc (p.1.startTime + jsNumOr p.2.duration p.1.duration)) 0
  { text := jsTrim (String.intercalate " " textParts)
    segments := jsSortBy segStartLe allSegments
    language := detectedLanguage
    duration := totalDuration }

/-- The abstract content of an audio file: its byte size and its duration as
reported by `ffprobe`.  (Other probed fields are irrelevant to the claims.) -/
structure AudioFile where
  size : Nat
  duration : Seconds
deriving Repr, DecidableEq

/-- A file system: an association list from paths to audio files.  Lookup
takes the most recent write. -/
abbrev FS := List (String × AudioFile)

/-- Read a file (`none` if the path does not exist). -/
def FS.read (fs : FS) (p : String) : Option AudioFile :=
  fs.lookup p

/-- Write (or overwrite) a file. -/
def FS.write (fs : FS) (p : String) (f : AudioFile) : FS :=
  (p, f) :: fs

/-- `fs.unlink`: remove a file; no error if absent (callers use
`.catch(() => {})`). -/
def FS.unlink (fs : FS) (p : String) : FS :=
  fs.filter (fun q => q.1 ≠ p)

/-- Oracle for the external media binary: the result of re-encoding a file
at 64 kbps (`compressAudio`), and of slicing out a window
(fast-seek `-ss start` before `-i`, `-t duration`, re-encode at 128 kbps). -/
structure FFmpegEnv where
  compress64 : AudioFile → AudioFile
  slice : AudioFile → Seconds → Seconds → AudioFile

/-- `getFileSize(path)`: `fs.stat`; rejects when the path does not exist. -/
def getFileSize (fs : FS) (p : String) : Except String Nat :=
  match fs.read p with
  | some f => .ok f.size
  | none => .error ("ENOENT: no such file: " ++ p)

/-- `getAudioInfo(path)`: `ffprobe`; rejects when the path does not exist. -/
def getAudioInfo (fs : FS) (p : String) : Except String AudioFile :=
  match fs.read p with
  | some f => .ok f
  | none => .error ("FFprobe exited with code 1: no such file: " ++ p)

/-- `needsChunking(path)`: strictly greater than the 25 MB limit. -/
def needsChunking (fs : FS) (p : String) : Except String Bool :=
  match getFileSize fs p with
  | .ok size => .ok (decide (size > WHISPER_MAX_FILE_SIZE))
  | .error e => .error e

/-- `compressAudio(input, output, "64k")`: run ffmpeg, writing the
re-encoded file at `output`. -/
def compressAudio (env : FFmpegEnv) (fs : FS) (input output : String) :
    Except String FS :=
  match fs.read input with
  | some f => .ok (fs.write output (env.compress64 f))
  | none => .error ("FFmpeg exited with code 1: no such file: " ++ input)

/-- `tryCompressForWhisper(input, output)`: compress to 64 kbps, then report
whether the result fits under the 25 MB limit. -/
def tryCompressForWhisper (env : FFmpegEnv) (fs : FS) (input output : String) :
    Except String (Bool × String × Nat × FS) :=
  match compressAudio env fs input output with
  | .error e => .error e
  | .ok fs1 =>
    match getFileSize fs1 output with
    | .error e => .error e
    | .ok size =>
      if size ≤ WHISPER_MAX_FILE_SIZE then .ok (true, output, size, fs1)
      else .ok (false, output, size, fs1)

/-- Left-pad with `'0'` to three characters (`padStart(3, "0")`). -/
def padStart3 (s : String) : String :=
  if s.length ≥ 3 then s else String.mk (List.replicate (3 - s.length) '0') ++ s

/-- Chunk output path
`outputDir + "/" + baseName + "_chunk_" + idx.padStart(3,"0") + ".mp3"`. -/
def chunkPath (outputDir baseName : String) (idx : Nat) : String :=
  outputDir ++ "/" ++ baseName ++ "_chunk_" ++ padStart3 (toString idx) ++ ".mp3"

/-- The `while (currentTime < totalDuration)` loop of `splitAudioIntoChunks`,
with explicit fuel.  When the fuel runs out (which models the JS loop not
terminating, possible only for a non-positive target duration) the embedding
reports an error. -/
def splitChunksLoop (env : FFmpegEnv) (f : AudioFile)
    (outputDir baseName : String) (totalDuration target overlap : Seconds) :
    Nat → Seconds → Nat → FS → List AudioChunk →
    Except String (List AudioChunk × FS)
  | 0, _, _, _, _ => .error "splitAudioIntoChunks: loop did not terminate"
  | fuel + 1, currentTime, chunkIndex, fs, acc =>
    if currentTime < totalDuration then
      let chunkStart := max 0 (currentTime - overlap)
      let chunkEnd := min totalDuration (currentTime + target + overlap)
      let chunkDuration := chunkEnd - chunkStart
      let outputPath := chunkPath outputDir baseName chunkIndex
      let fs1 := fs.write outputPath (env.slice f chunkStart chunkDuration)
      let acc1 := acc ++
        [AudioChunk.mk chunkIndex outputPath chunkStart chunkEnd chunkDuration]
      splitChunksLoop env f outputDir baseName totalDuration target overlap
        fuel (currentTime + target) (chunkIndex + 1) fs1 acc1
    else
      .ok (acc, fs)

/-- Fuel that suffices for any positive target duration: one iteration per
`target`-sized step across `totalDuration`. -/
def splitFuel (totalDuration target : Seconds) : Nat :=
  (Int.toNat (Int.ceil (totalDuration / target))) + 1

/-- `splitAudioIntoChunks(inputPath, outputDir, options)`: probe the input,
then cut `[max 0 (t - overlap), min total (t + target + overlap))` windows
advancing `t` by `target`.  The base name of the input path is abstracted as
the input path itself (string identity of chunk paths is claim-irrelevant). -/
def splitAudioIntoChunks (env : FFmpegEnv) (fs : FS)
    (inputPath outputDir : String) (options : ChunkingOptions) :
    Except String (List AudioChunk × FS) :=
  let target := options.targetChunkDurationSeconds.getD DEFAULT_CHUNK_DURATION_SECONDS
  let overlap := options.overlapSeconds.getD 2
  match getAudioInfo fs inputPath with
  | .error e => .error e
  | .ok f =>
    splitChunksLoop env f outputDir inputPath f.duration target overlap
      (splitFuel f.duration target) 0 0 fs []

/-- `prepareAudioForWhisper(inputPath, outputDir, options)`:
single chunk when already under the limit; otherwise one 64 kbps compression
pass; if that fits, a single compressed chunk; otherwise the compressed file
is unlinked and `splitAudioIntoChunks` is invoked **on the unlinked path**
with a 25-minute target window. -/
def prepareAudioForWhisper (env : FFmpegEnv) (fs : FS)
    (inputPath outputDir : String) (options : ChunkingOptions) :
    Except String (List AudioChunk × FS) :=
  match getFileSize fs inputPath with
  | .error e => .error e
  | .ok fileSize =>
    if fileSize ≤ WHISPER_MAX_FILE_SIZE then
      match getAudioInfo fs inputPath with
      | .error e => .error e
      | .ok info =>
        .ok ([AudioChunk.mk 0 inputPath 0 info.duration info.duration], fs)
    else
      let compressedPath := outputDir ++ "/compressed.mp3"
      match tryCompressForWhisper env fs inputPath compressedPath with
      | .error e => .error e
      | .ok (success, _, _, fs1) =>
        if success then
          match getAudioInfo fs1 compressedPath with
          | .error e => .error e
          | .ok info =>
            .ok ([AudioChunk.mk 0 compressedPath 0 info.duration info.duration],
              fs1)
        else
          let fs2 := fs1.unlink compressedPath
          splitAudioIntoChunks env fs2 compressedPath outputDir
            { options with targetChunkDurationSeconds := some (25 * 60) }

/-- `cleanupChunks(chunks)`: unlink every chunk file, ignoring errors. -/
def cleanupChunks (fs : FS) (chunks : List AudioChunk) : FS :=
  chunks.foldl (fun acc c => acc.unlink c.path) fs

/-!
## Data model (Prisma schema: `EpisodeStatus`, `DigestStatus`, rows)
-/

/-- `EpisodeStatus` enum. -/
inductive EpisodeStatus
  | pending | downloading | transcribing | transcribed
  | analyzing | analyzed | failed
deriving Repr, DecidableEq

/-- The persisted transcript JSON document. -/
structure Transcript where
  text : String
  segments : List TranscriptSegment
  language : Option String := none
  duration : Option Seconds := none
deriving Repr, DecidableEq

/-- An `Episode` row (the columns the embedded workers touch). -/
structure Episode where
  id : String
  title : String
  audioUrl : String
  status : EpisodeStatus
  transcript : Option Transcript := none
  duration : Option Int := none
deriving Repr, DecidableEq

/-- A `User` row (the columns the embedded workers touch). -/
structure User where
  id : String
  name : Option String := none
  interests : List String := []
deriving Repr, DecidableEq

/-- `DigestStatus` enum (with the `curating` value used by the pipeline). -/
inductive DigestStatus
  | pending | curating | generating_script | generating_audio
  | stitching | ready | failed
deriving Repr, DecidableEq

/-- A `Digest` row (the columns the embedded workers touch). -/
structure Digest where
  id : String
  userId : String
  status : DigestStatus
  episodeIds : List String := []
  narratorScript : Option String := none
  audioUrl : Option String := none
  duration : Option Int := none
deriving Repr, DecidableEq

/-- A `DigestClip` association row. -/
structure DigestClipRow where
  digestId : String
  clipId : String
  order : Nat
deriving Repr, DecidableEq

/-- A `Clip` row. -/
structure Clip where
  id : String
  episodeId : String
  startTime : Seconds
  endTime : Seconds
  duration : Seconds
  transcript : String
  relevanceScore : ℚ
  reasoning : Option String := none
  summary : Option String := none
deriving Repr, DecidableEq

/-!
## Transcription worker
(`packages/workers/server/jobs/example/worker.ts`, chunking variant)
-/

/-- `getTempPath(episodeId, "mp3")`. -/
def getTempPath (episodeId : String) : String :=
  "/tmp/sifter/episodes/" ++ episodeId ++ ".mp3"

/-- `getTempChunkDir(episodeId)`. -/
def getTempChunkDir (episodeId : String) : String :=
  "/tmp/sifter/episodes/" ++ episodeId ++ "_chunks"

/-- Observable side effects of the transcription worker, in program order.
(Job-progress updates and log lines are not modelled.) -/
inductive TEff
  | updateStatus (s : EpisodeStatus)
  | download
  | sttCall (path : String)
  | saveTranscript
deriving Repr, DecidableEq

/-- Oracles for the transcription worker's external collaborators:
the media binary, the audio download (the file that `downloadAudio` writes
to the temp path, or a network failure), and the Whisper STT call per
input path. -/
structure TransEnv where
  ffmpeg : FFmpegEnv
  download : Except String AudioFile
  transcribe : String → Except String TranscriptChunk

/-- `TranscriptionJobData`. -/
structure TranscriptionJobData where
  episodeId : String
  audioUrl : String
deriving Repr, DecidableEq

/-- `TranscriptionJobResult`; `transcript` is optional because the dedup
path returns whatever the row stores (possibly `null`). -/
structure TranscriptionJobResult where
  episodeId : String
  transcript : Option Transcript
deriving Repr, DecidableEq

/-- Result of running the transcription worker: the returned value or the
re-raised error, the final episode row, the final file system, and the
ordered effect trace. -/
structure TransOutcome where
  result : Except String TranscriptionJobResult
  episode : Option Episode
  fs : FS
  effects : List TEff
deriving Repr

/-- Intermediate state produced by the `try` block body. -/
structure TranscriptionTryResult where
  result : Except String Transcript
  episode : Episode
  fs : FS
  effects : List TEff
  chunks : List AudioChunk

/-- The sequential `for` loop over chunks: call the STT oracle on each chunk
path, stopping at the first failure. -/
def transcribeChunksLoop (env : TransEnv) :
    List AudioChunk → List (AudioChunk × TranscriptChunk) → List TEff →
    (Except String (List (AudioChunk × TranscriptChunk))) × List TEff
  | [], acc, effs => (.ok acc, effs)
  | c :: rest, acc, effs =>
    match env.transcribe c.path with
    | .error e => (.error e, effs ++ [.sttCall c.path])
    | .ok r => transcribeChunksLoop env rest (acc ++ [(c, r)]) (effs ++ [.sttCall c.path])

/-- `detectedLanguage`: initialised `"en"`, overwritten by the first chunk's
language when that is truthy. -/
def detectedLang (results : List (AudioChunk × TranscriptChunk)) : String :=
  match results with
  | [] => "en"
  | (_, r) :: _ => jsStrOr r.language "en"

/-- Phase 3 of the worker: the final row update
`{status: "transcribed", transcript, duration: transcript.duration ?
Math.round(transcript.duration) : undefined}`. -/
def saveTranscriptUpdate (ep : Episode) (t : Transcript) : Episode :=
  { ep with
    status := .transcribed
    transcript := some t
    duration :=
      match t.duration with
      | some d => if d = 0 then ep.duration else some (jsRound d)
      | none => ep.duration }

/-- The body of the transcription worker's `try` block: set status
`downloading`, download, decide on chunking, set status `transcribing`,
transcribe (chunked or single-file), merge, and persist. -/
def transcriptionTry (env : TransEnv) (fs : FS) (ep : Episode)
    (episodeId : String) : TranscriptionTryResult :=
  let ep1 : Episode := { ep with status := .downloading }
  let effs0 : List TEff := [.updateStatus .downloading]
  let tempFilePath := getTempPath episodeId
  match env.download with
  | .error e => ⟨.error e, ep1, fs, effs0, []⟩
  | .ok file =>
    let fs1 := fs.write tempFilePath file
    let effs1 := effs0 ++ [TEff.download]
    match needsChunking fs1 tempFilePath with
    | .error e => ⟨.error e, ep1, fs1, effs1, []⟩
    | .ok requiresChunking =>
      let ep2 : Episode := { ep1 with status := .transcribing }
      let effs2 := effs1 ++ [TEff.updateStatus .transcribing]
      if requiresChunking then
        match prepareAudioForWhisper env.ffmpeg fs1 tempFilePath
            (getTempChunkDir episodeId) {} with
        | .error e => ⟨.error e, ep2, fs1, effs2, []⟩
        | .ok (chunks, fs2) =>
          match transcribeChunksLoop env chunks [] [] with
          | (.error e, effsC) => ⟨.error e, ep2, fs2, effs2 ++ effsC, chunks⟩
          | (.ok results, effsC) =>
            let merged := mergeTranscriptChunks results (detectedLang results)
            let transcript : Transcript :=
              { text := merged.text, segments := merged.segments,
                language := some merged.language,
                duration := some merged.duration }
            ⟨.ok transcript, saveTranscriptUpdate ep2 transcript, fs2,
              effs2 ++ effsC ++ [TEff.saveTranscript], chunks⟩
      else
        match env.transcribe tempFilePath with
        | .error e => ⟨.error e, ep2, fs1, effs2 ++ [.sttCall tempFilePath], []⟩
        | .ok r =>
          let transcript : Transcript :=
            { text := r.text, segments := r.segments,
              language := r.language, duration := r.duration }
          ⟨.ok transcript, saveTranscriptUpdate ep2 transcript, fs1,
            effs2 ++ [TEff.sttCall tempFilePath, TEff.saveTranscript], []⟩

/-- The `finally` block: remove the downloaded temp file and any chunk
files. -/
def transcriptionFinally (fs : FS) (episodeId : String)
    (chunks : List AudioChunk) : FS :=
  cleanupChunks (fs.unlink (getTempPath episodeId)) chunks

/-- `transcriptionWorker(job)`: entity lookup, dedup fast paths, then the
`try`/`catch`/`finally` body.  The episode row passed in is the result of the
initial `findUnique`. -/
def transcriptionWorker (env : TransEnv) (fs : FS)
    (episode : Option Episode) (data : TranscriptionJobData) : TransOutcome :=
  match episode with
  | none =>
    { result := .error ("Episode not found: " ++ data.episodeId),
      episode := none, fs := fs, effects := [] }
  | some ep =>
    if ep.status = .transcribed then
      { result := .ok ⟨data.episodeId, ep.transcript⟩,
        episode := some ep, fs := fs, effects := [] }
    else if ep.status = .downloading ∨ ep.status = .transcribing then
      { result := .error ("Episode " ++ data.episodeId ++
          " is already being processed"),
        episode := some ep, fs := fs, effects := [] }
    else
      match transcriptionTry env fs ep data.episodeId with
      | ⟨.ok t, ep1, fs1, effs, chunks⟩ =>
        { result := .ok ⟨data.episodeId, some t⟩, episode := some ep1,
          fs := transcriptionFinally fs1 data.episodeId chunks,
          effects := effs }
      | ⟨.error e, ep1, fs1, effs, chunks⟩ =>
        { result := .error e,
          episode := some { ep1 with status := .failed },
          fs := transcriptionFinally fs1 data.episodeId chunks,
          effects := effs ++ [TEff.updateStatus .failed] }

/-!
## Analysis worker (`packages/workers/server/jobs/analysis/worker.ts`)
-/

/-- The transcript part of a `ClipSelectionInput`. -/
structure ClipSelectionTranscript where
  text : String
  segments : List TranscriptSegment
  duration : Option Seconds
deriving Repr, DecidableEq

/-- `ClipSelectionInput` from `prompts/clip-selection.ts`: the data the LLM
prompt is built from (`buildClipSelectionPrompt` is a pure template over
this record). -/
structure ClipSelectionInput where
  episodeTitle : String
  podcastTitle : String
  transcript : ClipSelectionTranscript
  userInterests : List String
deriving Repr, DecidableEq

/-- One clip in the parsed LLM response. -/
structure LLMClip where
  startTime : Seconds
  endTime : Seconds
  transcript : String
  relevanceScore : ℚ
  reasoning : String
  summary : String
deriving Repr, DecidableEq

/-- `ClipSelectionOutput`: the parsed LLM response. -/
structure ClipSelectionOutput where
  clips : List LLMClip
deriving Repr, DecidableEq

/-- Observable side effects of the analysis worker, in program order. -/
inductive AEff
  | updateStatus (s : EpisodeStatus)
  | llmCall (input : ClipSelectionInput)
  | deleteClips
  | insertClip (c : Clip)
deriving Repr, DecidableEq

/-- Oracle for the analysis worker's LLM call: the fetch + fence stripping +
`JSON.parse` + `clips`-array check, collapsed into one fallible call. -/
structure AnalysisEnv where
  llm : Except String ClipSelectionOutput

/-- `AnalysisJobData`. -/
structure AnalysisJobData where
  episodeId : String
  userId : String
  userInterests : List String
deriving Repr, DecidableEq

/-- The clip view returned by the worker
(`reasoning: ... || ""`, `summary: ... || ""`). -/
structure AnalysisResultClip where
  id : String
  startTime : Seconds
  endTime : Seconds
  transcript : String
  relevanceScore : ℚ
  reasoning : String
  summary : String
deriving Repr, DecidableEq

/-- `AnalysisJobResult`. -/
structure AnalysisJobResult where
  episodeId : String
  userId : String
  clips : List AnalysisResultClip
deriving Repr, DecidableEq

/-- The episode row as fetched by the worker (`include: { podcast: true }`). -/
structure EpisodeWithPodcast where
  episode : Episode
  podcastTitle : String
deriving Repr, DecidableEq

/-- Result of running the analysis worker: value or re-raised error, the
final episode row, the final `Clip` table, and the effect trace. -/
structure AnalysisOutcome where
  result : Except String AnalysisJobResult
  episode : Option Episode
  clipTable : List Clip
  effects : List AEff
deriving Repr

/-- Descending-by-`relevanceScore` comparator (Prisma
`orderBy: { relevanceScore: "desc" }`). -/
def clipScoreDesc (a b : Clip) : Bool :=
  b.relevanceScore ≤ a.relevanceScore

/-- View of a stored clip row as returned to the caller. -/
def clipView (c : Clip) : AnalysisResultClip :=
  { id := c.id, startTime := c.startTime, endTime := c.endTime,
    transcript := c.transcript, relevanceScore := c.relevanceScore,
    reasoning := jsStrOr c.reasoning "", summary := jsStrOr c.summary "" }

/-- The id a created clip row receives; stands for the DB-generated unique
id of the `i`-th `prisma.clip.create` of this run. -/
def genClipId (episodeId : String) (i : Nat) : String :=
  "clip-" ++ episodeId ++ "-" ++ toString i

/-- The clip rows created in phase 3: one per LLM clip, in order, with
`duration = endTime - startTime` and **no validation of the time range**. -/
def createdClips (episodeId : String) (out : ClipSelectionOutput) : List Clip :=
  out.clips.enum.map (fun p =>
    { id := genClipId episodeId p.1
      episodeId := episodeId
      startTime := p.2.startTime
      endTime := p.2.endTime
      duration := p.2.endTime - p.2.startTime
      transcript := p.2.transcript
      relevanceScore := p.2.relevanceScore
      reasoning := some p.2.reasoning
      summary := some p.2.summary })

/-- `analysisWorker(job)`: entity and user lookups, dedup fast paths, then
the `try`/`catch` body (prompt build, LLM call, wholesale clip replacement,
status transition). -/
def analysisWorker (env : AnalysisEnv) (row : Option EpisodeWithPodcast)
    (user : Option User) (clipTable : List Clip) (data : AnalysisJobData) :
    AnalysisOutcome :=
  match row with
  | none =>
    { result := .error ("Episode not found: " ++ data.episodeId),
      episode := none, clipTable := clipTable, effects := [] }
  | some r =>
    let ep := r.episode
    if ep.status = .analyzed then
      let existing := jsSortBy clipScoreDesc
        (clipTable.filter (fun c => c.episodeId = data.episodeId))
      { result := .ok ⟨data.episodeId, data.userId, existing.map clipView⟩,
        episode := some ep, clipTable := clipTable, effects := [] }
    else
      match ep.transcript with
      | none =>
        { result := .error ("Episode " ++ data.episodeId ++
            " has no transcript. Run transcription first."),
          episode := some ep, clipTable := clipTable, effects := [] }
      | some t =>
        if ep.status = .analyzing then
          { result := .error ("Episode " ++ data.episodeId ++
              " is already being analyzed"),
            episode := some ep, clipTable := clipTable, effects := [] }
        else
          match user with
          | none =>
            { result := .error ("User not found: " ++ data.userId),
              episode := some ep, clipTable := clipTable, effects := [] }
          | some u =>
            let ep1 : Episode := { ep with status := .analyzing }
            let promptInput : ClipSelectionInput :=
              { episodeTitle := ep.title
                podcastTitle := r.podcastTitle
                transcript :=
                  { text := t.text, segments := t.segments,
                    duration := t.duration }
                userInterests :=
                  if data.userInterests.length > 0 then data.userInterests
                  else u.interests }
            let effs0 : List AEff :=
              [.updateStatus .analyzing, .llmCall promptInput]
            match env.llm with
            | .error e =>
              { result := .error e,
                episode := some { ep1 with status := .failed },
                clipTable := clipTable,
                effects := effs0 ++ [AEff.updateStatus .failed] }
            | .ok out =>
              let newClips := createdClips data.episodeId out
              let table1 :=
                clipTable.filter (fun c => ¬ c.episodeId = data.episodeId)
              { result := .ok ⟨data.episodeId, data.userId,
                  newClips.map clipView⟩,
                episode := some { ep1 with status := .analyzed },
                clipTable := table1 ++ newClips,
                effects := effs0 ++ [AEff.deleteClips] ++
                  newClips.map AEff.insertClip ++
                  [AEff.updateStatus .analyzed] }

/-!
## Curation worker (`packages/workers/server/jobs/curation/worker.ts`)
-/

/-- `CandidateClip` from `prompts/curation.ts`. -/
structure CandidateClip where
  clipId : String
  episodeId : String
  episodeTitle : String
  podcastId : String
  podcastTitle : String
  summary : String
  relevanceScore : ℚ
  duration : Seconds
  startTime : Seconds
  endTime : Seconds
  transcript : String
deriving Repr, DecidableEq

/-- `CurationInput`: the data the curation prompt is built from. -/
structure CurationInput where
  targetDuration : ℚ
  targetClipCountMin : Nat
  targetClipCountMax : Nat
  userInterests : List String
  candidates : List CandidateClip
deriving Repr, DecidableEq

/-- `CurationOutput`: the parsed LLM response. -/
structure CurationOutput where
  selectedClipIds : List String
  reasoning : String
  topicCoverage : List String
deriving Repr, DecidableEq

/-- `CurationJobData` (`targetClipCount` as a `(min, max)` pair). -/
structure CurationJobData where
  digestId : String
  userId : String
  episodeIds : List String
  userInterests : List String
  targetDuration : Option ℚ := none
  targetClipCount : Option (Nat × Nat) := none
deriving Repr, DecidableEq

/-- `CurationJobResult`. -/
structure CurationJobResult where
  digestId : String
  selectedClipIds : List String
  totalDuration : Seconds
  topicCoverage : List String
  reasoning : String
deriving Repr, DecidableEq

/-- A row of the candidate query: a clip with its episode and podcast
joined in. -/
structure ClipRow where
  clip : Clip
  episodeTitle : String
  podcastId : String
  podcastTitle : String
deriving Repr, DecidableEq

/-- Observable side effects of the curation worker, in program order. -/
inductive CurEff
  | updateStatus (s : DigestStatus)
  | llmCall (input : CurationInput)
  | deleteDigestClips
  | insertDigestClip (r : DigestClipRow)
  | updateDigest
deriving Repr, DecidableEq

/-- Oracle for the curation worker's LLM call (completion + fence stripping
+ `JSON.parse` + `selectedClipIds`-array check, collapsed). -/
structure CurEnv where
  llm : Except String CurationOutput

/-- Result of running the curation worker. -/
structure CurationOutcome where
  result : Except String CurationJobResult
  digest : Option Digest
  digestClipTable : List DigestClipRow
  effects : List CurEff
deriving Repr

/-- Descending-by-score comparator on joined clip rows. -/
def clipRowScoreDesc (a b : ClipRow) : Bool :=
  b.clip.relevanceScore ≤ a.clip.relevanceScore

/-- Transformation of a fetched clip row into the `CandidateClip` prompt
shape (`summary: clip.summary || "Interesting clip"`). -/
def toCandidate (r : ClipRow) : CandidateClip :=
  { clipId := r.clip.id
    episodeId := r.clip.episodeId
    episodeTitle := r.episodeTitle
    podcastId := r.podcastId
    podcastTitle := r.podcastTitle
    summary := jsStrOr r.clip.summary "Interesting clip"
    relevanceScore := r.clip.relevanceScore
    duration := r.clip.duration
    startTime := r.clip.startTime
    endTime := r.clip.endTime
    transcript := r.clip.transcript }

/-- The greedy fallback loop of phase 4: walk the (score-descending)
candidates, appending ids not yet selected, and stop as soon as the
selection reaches `minCount`. -/
def curationFillLoop (minCount : Nat) :
    List CandidateClip → List String → List String
  | [], sel => sel
  | c :: rest, sel =>
    let sel1 := if sel.contains c.clipId then sel else sel ++ [c.clipId]
    if minCount ≤ sel1.length then sel1
    else curationFillLoop minCount rest sel1

/-- Phase 4 of the worker: drop ids outside the candidate set (the source
re-assigns only when at least one invalid id exists, which is the same
filter), then, if fewer than `minCount` ids survive, run the greedy fill. -/
def curationValidate (minCount : Nat) (candidates : List CandidateClip)
    (selectedClipIds : List String) : List String :=
  let validClipIds := candidates.map (fun c => c.clipId)
  let invalidIds :=
    selectedClipIds.filter (fun id => ¬ validClipIds.contains id)
  let selected0 :=
    if invalidIds.length > 0 then
      selectedClipIds.filter (fun id => validClipIds.contains id)
    else selectedClipIds
  if selected0.length < minCount then
    curationFillLoop minCount candidates selected0
  else selected0

/-- Phase 5 of the worker: one `digestClip.create` per selected id with
`order` the loop index, skipping ids whose candidate cannot be found
(`continue`), and summing the durations of the inserted clips.  Each
`create` is subject to the schema's `UNIQUE ("digestId", "clipId")` index
on `DigestClip` (`DigestClip_digestId_clipId_key`): the loop runs right
after a `deleteMany` on this `digestId` and every row it writes carries
this `digestId`, so a violation happens exactly when the id being inserted
already occurs among the rows written by this run.  The create then
throws; the loop stops with the rows written so far, which persist in the
database because the creates are separate awaits, not a transaction. -/
def curationInsertLoop (digestId : String) (candidates : List CandidateClip) :
    List (Nat × String) → List DigestClipRow → Seconds →
    Option String × List DigestClipRow × Seconds
  | [], rows, total => (none, rows, total)
  | (i, id) :: rest, rows, total =>
    match candidates.find? (fun c => c.clipId = id) with
    | none => curationInsertLoop digestId candidates rest rows total
    | some c =>
      if rows.any (fun r => r.digestId = digestId ∧ r.clipId = id) then
        (some "Unique constraint failed on the fields: (digestId,clipId)",
          rows, total)
      else
        curationInsertLoop digestId candidates rest
          (rows ++ [DigestClipRow.mk digestId id i]) (total + c.duration)

/-- Intermediate state produced by the curation `try` block. -/
structure CurationTryResult where
  result : Except String CurationJobResult
  digest : Digest
  digestClipTable : List DigestClipRow
  effects : List CurEff

/-- The body of the curation worker's `try` block: set status `curating`,
fetch and rank candidates, call the LLM, validate/fill, replace the
`DigestClip` rows, and finish the digest row (status `pending`, stored
`episodeIds`, `narratorScript` cleared).  If one of the per-row creates
violates the `DigestClip` unique index, the deletion and the rows created
before the violation have already been persisted and the thrown error
propagates to the worker's `catch`, so the digest row is never updated
here. -/
def curationTry (env : CurEnv) (d : Digest) (clipRowTable : List ClipRow)
    (digestClipTable : List DigestClipRow) (data : CurationJobData) :
    CurationTryResult :=
  let d1 : Digest := { d with status := .curating }
  let effs0 : List CurEff := [.updateStatus .curating]
  let clips := jsSortBy clipRowScoreDesc
    (clipRowTable.filter (fun r => data.episodeIds.contains r.clip.episodeId))
  if clips.length = 0 then
    ⟨.error "No candidate clips found for the specified episodes", d1,
      digestClipTable, effs0⟩
  else
    let candidates := clips.map toCandidate
    let targetDuration := data.targetDuration.getD 420
    let targetClipCount := data.targetClipCount.getD (6, 8)
    let curationInput : CurationInput :=
      { targetDuration := targetDuration
        targetClipCountMin := targetClipCount.1
        targetClipCountMax := targetClipCount.2
        userInterests := data.userInterests
        candidates := candidates }
    let effs1 := effs0 ++ [CurEff.llmCall curationInput]
    match env.llm with
    | .error e => ⟨.error e, d1, digestClipTable, effs1⟩
    | .ok out =>
      let selected :=
        curationValidate targetClipCount.1 candidates out.selectedClipIds
      let table1 :=
        digestClipTable.filter (fun r => ¬ r.digestId = data.digestId)
      match curationInsertLoop data.digestId candidates selected.enum [] 0 with
      | (some e, rows, _) =>
        ⟨.error e, d1, table1 ++ rows,
          effs1 ++ [CurEff.deleteDigestClips] ++
            rows.map CurEff.insertDigestClip⟩
      | (none, rows, total) =>
        let d2 : Digest :=
          { d1 with
            status := .pending
            episodeIds := data.episodeIds
            narratorScript := none }
        ⟨.ok { digestId := data.digestId
               selectedClipIds := selected
               totalDuration := total
               topicCoverage := out.topicCoverage
               reasoning := out.reasoning },
          d2, table1 ++ rows,
          effs1 ++ [CurEff.deleteDigestClips] ++
            rows.map CurEff.insertDigestClip ++ [CurEff.updateDigest]⟩

/-- `curationWorker(job)`: digest lookup, then the `try`/`catch` body; the
`catch` sets the digest status to `failed` and re-raises. -/
def curationWorker (env : CurEnv) (digest : Option Digest)
    (clipRowTable : List ClipRow) (digestClipTable : List DigestClipRow)
    (data : CurationJobData) : CurationOutcome :=
  match digest with
  | none =>
    { result := .error ("Digest not found: " ++ data.digestId),
      digest := none, digestClipTable := digestClipTable, effects := [] }
  | some d =>
    match curationTry env d clipRowTable digestClipTable data with
    | ⟨.ok res, d1, table1, effs⟩ =>
      { result := .ok res, digest := some d1, digestClipTable := table1,
        effects := effs }
    | ⟨.error e, d1, table1, effs⟩ =>
      { result := .error e, digest := some { d1 with status := .failed },
        digestClipTable := table1,
        effects := effs ++ [CurEff.updateStatus .failed] }

/-!
## Digest generation worker (`digestWorker` / `stitchDigest`)
-/

/-- The parsed narrator script document. -/
structure NarratorScripts where
  intro : String
  transitions : List String
  outro : String
deriving Repr, DecidableEq

/-- `existingTTSPaths` resumption input. -/
structure ExistingTTSPaths where
  introPath : String
  transitionPaths : List String
  outroPath : String
deriving Repr, DecidableEq

/-- `DigestJobData`. -/
structure DigestJobData where
  digestId : String
  userId : String
  clipIds : List String
  podcastId : String
  episodeIds : List String
  skipScriptGeneration : Bool := false
  existingTTSPaths : Option ExistingTTSPaths := none
deriving Repr, DecidableEq

/-- `DigestJobResult` (`status` is the literal `"ready"` on success). -/
structure DigestJobResult where
  digestId : String
  audioUrl : String
  duration : Int
  status : String
deriving Repr, DecidableEq

/-- A `DigestClip` row joined with its clip, episode and podcast. -/
structure DigestClipJoin where
  order : Nat
  clip : Clip
  episodeTitle : String
  episodeAudioUrl : String
  podcastTitle : String
deriving Repr, DecidableEq

/-- Observable side effects of the digest worker, in program order. -/
inductive DEff
  | updateStatus (s : DigestStatus)
  | llmCall
  | saveScript (s : String)
  | ttsCall (text : String) (path : String)
  | downloadEpisode (i : Nat)
  | sliceCall (clipId : String) (startTime : Seconds) (endTime : Seconds)
  | concatCall (paths : List String)
  | publish (audioUrl : String) (duration : Int)
deriving Repr, DecidableEq

/-- Oracles for the digest worker's external collaborators. -/
structure DigestEnv where
  parseScript : String → Except String NarratorScripts
  llmScripts : Except String NarratorScripts
  stringifyScripts : NarratorScripts → String
  tts : String → Except String AudioFile
  downloadClip : Nat → Except String AudioFile
  ffmpeg : FFmpegEnv
  concatResult : List AudioFile → AudioFile

/-- Result of running the digest worker. -/
structure DigestOutcome where
  result : Except String DigestJobResult
  digest : Option Digest
  fs : FS
  effects : List DEff
deriving Repr

/-- The sequence-building loop of `stitchDigest`: push each clip, and after
clip `i` push transition `i` as long as one exists. -/
def stitchLoop : List String → List String → List String
  | [], _ => []
  | c :: cs, [] => c :: stitchLoop cs []
  | c :: cs, t :: ts => c :: t :: stitchLoop cs ts

/-- The playback sequence built by `stitchDigest`:
`[intro] ++ (clips interleaved with transitions) ++ [outro]`. -/
def stitchSequence (introPath : String) (transitionPaths : List String)
    (outroPath : String) (clipPaths : List String) : List String :=
  (introPath :: stitchLoop clipPaths transitionPaths) ++ [outroPath]

/-- `Math.round(stats.size / (128 * 1024 / 8))`: seconds estimated from the
byte size at 128 kbps. -/
def estimateDigestDuration (size : Nat) : Int :=
  jsRound ((size : ℚ) / (128 * 1024 / 8))

/-- Read every path of a concat sequence (ffmpeg fails if an input is
missing). -/
def collectFiles (fs : FS) : List String → Except String (List AudioFile)
  | [] => .ok []
  | p :: ps =>
    match fs.read p with
    | none => .error ("FFmpeg exited with code 1: no such file: " ++ p)
    | some f =>
      match collectFiles fs ps with
      | .error e => .error e
      | .ok rest => .ok (f :: rest)

/-- The TTS loop over transitions
(`narrator_transition_{i}.mp3` for each script transition). -/
def ttsTransitionsLoop (env : DigestEnv) (tempDir : String) :
    List String → Nat → FS → List String → List DEff →
    (Except String (List String × FS)) × List DEff
  | [], _, fs, acc, effs => (.ok (acc, fs), effs)
  | t :: rest, i, fs, acc, effs =>
    let path := tempDir ++ "/narrator_transition_" ++ toString i ++ ".mp3"
    match env.tts t with
    | .error e => (.error e, effs ++ [.ttsCall t path])
    | .ok f =>
      ttsTransitionsLoop env tempDir rest (i + 1) (fs.write path f)
        (acc ++ [path]) (effs ++ [.ttsCall t path])

/-- The sequential clip-extraction loop (`extractClipAudio` per digest clip,
in `order`): download the episode audio, slice
`[clip.startTime, clip.endTime]`, discard the full download. -/
def extractClipsLoop (env : DigestEnv) (tempDir : String) :
    List DigestClipJoin → Nat → FS → List String → List DEff →
    (Except String (List String × FS)) × List DEff
  | [], _, fs, acc, effs => (.ok (acc, fs), effs)
  | dc :: rest, i, fs, acc, effs =>
    let clipPath := tempDir ++ "/clip_" ++ toString i ++ ".mp3"
    let tempEpisodePath := tempDir ++ "/clip_" ++ toString i ++ "_full.mp3"
    match env.downloadClip i with
    | .error e => (.error e, effs ++ [.downloadEpisode i])
    | .ok f =>
      let sliced :=
        env.ffmpeg.slice f dc.clip.startTime (dc.clip.endTime - dc.clip.startTime)
      let fs1 := (((fs.write tempEpisodePath f).write clipPath
        sliced).unlink tempEpisodePath)
      extractClipsLoop env tempDir rest (i + 1) fs1 (acc ++ [clipPath])
        (effs ++ [.downloadEpisode i,
          .sliceCall dc.clip.id dc.clip.startTime dc.clip.endTime])

/-- Intermediate state produced by the digest worker's `try` block. -/
structure DigestTryResult where
  result : Except String DigestJobResult
  digest : Digest
  fs : FS
  effects : List DEff

/-- Phases 2-5 of the digest worker body, once the narrator scripts are in
hand. -/
def digestTryFrom2 (env : DigestEnv) (fs : FS) (d : Digest)
    (digestClips : List DigestClipJoin) (data : DigestJobData)
    (scripts : NarratorScripts) (effs : List DEff) : DigestTryResult :=
  let tempDir := getTempChunkDir data.digestId
  let phase2 :
      (Except String (String × List String × String × FS)) × Digest × List DEff :=
    match data.existingTTSPaths with
    | some p =>
      let files := p.introPath :: (p.transitionPaths ++ [p.outroPath])
      match files.find? (fun q => (fs.read q).isNone) with
      | some missing =>
        (.error ("Existing TTS file not found: " ++ missing), d, effs)
      | none => (.ok (p.introPath, p.transitionPaths, p.outroPath, fs), d, effs)
    | none =>
      let d1 : Digest := { d with status := .generating_audio }
      let effs1 := effs ++ [DEff.updateStatus .generating_audio]
      let introPath := tempDir ++ "/narrator_intro.mp3"
      match env.tts scripts.intro with
      | .error e => (.error e, d1, effs1 ++ [.ttsCall scripts.intro introPath])
      | .ok introFile =>
        let fs1 := fs.write introPath introFile
        let effs2 := effs1 ++ [DEff.ttsCall scripts.intro introPath]
        match ttsTransitionsLoop env tempDir scripts.transitions 0 fs1 [] [] with
        | (.error e, effsT) => (.error e, d1, effs2 ++ effsT)
        | (.ok (transitionPaths, fs2), effsT) =>
          let outroPath := tempDir ++ "/narrator_outro.mp3"
          match env.tts scripts.outro with
          | .error e =>
            (.error e, d1, effs2 ++ effsT ++ [.ttsCall scripts.outro outroPath])
          | .ok outroFile =>
            (.ok (introPath, transitionPaths, outroPath, fs2.write outroPath
              outroFile), d1,
              effs2 ++ effsT ++ [DEff.ttsCall scripts.outro outroPath])
  match phase2 with
  | (.error e, d1, effs1) => ⟨.error e, d1, fs, effs1⟩
  | (.ok (introPath, transitionPaths, outroPath, fsA), d1, effs1) =>
    match extractClipsLoop env tempDir digestClips 0 fsA [] [] with
    | (.error e, effsE) => ⟨.error e, d1, fsA, effs1 ++ effsE⟩
    | (.ok (clipPaths, fsB), effsE) =>
      let d2 : Digest := { d1 with status := .stitching }
      let effs2 := effs1 ++ effsE ++ [DEff.updateStatus .stitching]
      let finalOutputPath := tempDir ++ "/final_digest.mp3"
      let sequence := stitchSequence introPath transitionPaths outroPath clipPaths
      match collectFiles fsB sequence with
      | .error e => ⟨.error e, d2, fsB, effs2 ++ [.concatCall sequence]⟩
      | .ok files =>
        let outFile := env.concatResult files
        let fsC := fsB.write finalOutputPath outFile
        let finalDuration := estimateDigestDuration outFile.size
        let finalDestPath := "/tmp/sifter/digests/" ++ data.digestId ++ ".mp3"
        let fsD := fsC.write finalDestPath outFile
        let audioUrl := "/audio/digests/" ++ data.digestId ++ ".mp3"
        let d3 : Digest :=
          { d2 with
            status := .ready
            audioUrl := some audioUrl
            duration := some finalDuration }
        ⟨.ok { digestId := data.digestId
               audioUrl := audioUrl
               duration := finalDuration
               status := "ready" },
          d3, fsD,
          effs2 ++ [DEff.concatCall sequence,
            DEff.publish audioUrl finalDuration]⟩

/-- The body of the digest worker's `try` block: narrator scripts (reuse or
generate), narrator audio (reuse or TTS), clip extraction, stitching,
publishing. -/
def digestTry (env : DigestEnv) (fs : FS) (d : Digest)
    (digestClips : List DigestClipJoin) (data : DigestJobData) :
    DigestTryResult :=
  match d.narratorScript with
  | some s =>
    if data.skipScriptGeneration ∧ s ≠ "" then
      match env.parseScript s with
      | .error e => ⟨.error e, d, fs, []⟩
      | .ok scripts => digestTryFrom2 env fs d digestClips data scripts []
    else
      let d1 : Digest := { d with status := .generating_script }
      match env.llmScripts with
      | .error e =>
        ⟨.error e, d1, fs, [.updateStatus .generating_script, .llmCall]⟩
      | .ok scripts =>
        let str := env.stringifyScripts scripts
        let d2 : Digest := { d1 with narratorScript := some str }
        digestTryFrom2 env fs d2 digestClips data scripts
          [.updateStatus .generating_script, .llmCall, .saveScript str]
  | none =>
    let d1 : Digest := { d with status := .generating_script }
    match env.llmScripts with
    | .error e =>
      ⟨.error e, d1, fs, [.updateStatus .generating_script, .llmCall]⟩
    | .ok scripts =>
      let str := env.stringifyScripts scripts
      let d2 : Digest := { d1 with narratorScript := some str }
      digestTryFrom2 env fs d2 digestClips data scripts
        [.updateStatus .generating_script, .llmCall, .saveScript str]

/-- `digestWorker(job)`: digest and podcast lookups (the podcast lookup is
**outside** the `try`), then the `try`/`catch` body; the `catch` sets the
digest status to `failed` and re-raises.  `digestClips` is the eager-loaded
association, which the worker receives ordered by `order` ascending. -/
def digestWorker (env : DigestEnv) (fs : FS) (digest : Option Digest)
    (podcast : Option String) (digestClipJoins : List DigestClipJoin)
    (data : DigestJobData) : DigestOutcome :=
  match digest with
  | none =>
    { result := .error ("Digest not found: " ++ data.digestId),
      digest := none, fs := fs, effects := [] }
  | some d =>
    match podcast with
    | none =>
      { result := .error ("Podcast not found: " ++ data.podcastId),
        digest := some d, fs := fs, effects := [] }
    | some _ =>
      let digestClips := jsSortBy (fun a b => a.order ≤ b.order) digestClipJoins
      match digestTry env fs d digestClips data with
      | ⟨.ok res, d1, fs1, effs⟩ =>
        { result := .ok res, digest := some d1, fs := fs1, effects := effs }
      | ⟨.error e, d1, fs1, effs⟩ =>
        { result := .error e, digest := some { d1 with status := .failed },
          fs := fs1, effects := effs ++ [DEff.updateStatus .failed] }

/-!
## Claim C7: assembly concatenation order
-/

/-- The concatenation order in the words of the spec:
`clip[0], transition[0], clip[1], transition[1], …, transition[N-2],
clip[N-1]` — stated as its own definition so the code path can be proved
equal to it. -/
def specInterleave : List String → List String → List String
  | [], _ => []
  | [c], _ => [c]
  | c :: cs, [] => c :: cs
  | c :: cs, t :: ts => c :: t :: specInterleave cs ts

/-!
## Claim C5: transcript merging
-/

/-- A chunk descriptor for the C5 counterexample. -/
def c5Chunk : AudioChunk := AudioChunk.mk 0 "c0.mp3" 10 15 5

/-- A chunk transcript for the C5 counterexample: its text carries a
trailing space and its reported duration is present but `0`. -/
def c5Trans : TranscriptChunk := TranscriptChunk.mk "hello " [] (some "en") (some 0)

/-- Concrete fixtures for the analysis-worker claims. -/
def c3Episode : Episode :=
  { id := "ep1", title := "T", audioUrl := "http://a/e.mp3",
    status := .transcribed,
    transcript := some (Transcript.mk "txt" [] (some "en") (some 100)),
    duration := some 100 }

def c3Row : EpisodeWithPodcast := ⟨c3Episode, "P"⟩

def c3User : User := ⟨"u1", none, ["ai"]⟩

def c3Data : AnalysisJobData := ⟨"ep1", "u1", ["ai"]⟩

/-- LLM environment for the C3 counterexample: a single clip with
`endTime < startTime` (and hence outside any valid range). -/
def c3Env : AnalysisEnv := ⟨.ok ⟨[LLMClip.mk 50 40 "bad" 90 "r" "s"]⟩⟩

/-!
## Claim C2: transcription dedup fast paths
-/

/-- Stored transcript fixture for the C2 claims. -/
def c2Transcript : Transcript := Transcript.mk "old" [] (some "en") (some 60)

/-- An episode that is already past transcription (`analyzed`) and has a
stored transcript. -/
def c2Episode : Episode :=
  { id := "ep2", title := "T", audioUrl := "http://a/e.mp3",
    status := .analyzed, transcript := some c2Transcript,
    duration := some 60 }

/-- A transcription environment whose download and STT calls succeed and
produce a transcript different from the stored one. -/
def c2Env : TransEnv :=
  ⟨FFmpegEnv.mk id (fun f _ _ => f), .ok (AudioFile.mk 100 60),
    fun _ => .ok (TranscriptChunk.mk "new" [] (some "en") (some 60))⟩

def c2Data : TranscriptionJobData := ⟨"ep2", "http://a/e.mp3"⟩

/-!
## Claims C4 and C6: curation re-runs and selection validation
-/

/-- The candidate list the curation worker derives from the clip table:
clips of the digest's episodes, ranked by score descending, in prompt
shape. -/
def curationCandidatesOf (clipRowTable : List ClipRow)
    (episodeIds : List String) : List CandidateClip :=
  (jsSortBy clipRowScoreDesc (clipRowTable.filter
    (fun r => episodeIds.contains r.clip.episodeId))).map toCandidate

/-- Concrete fixtures for the curation claims. -/
def c4Clip : Clip :=
  { id := "c2", episodeId := "e1", startTime := 0, endTime := 90,
    duration := 90, transcript := "tx", relevanceScore := 80,
    reasoning := some "r", summary := some "s" }

def c4Row : ClipRow := ⟨c4Clip, "ET", "p1", "PT"⟩

/-- A digest that already has a narrator script (and, below, a non-empty
`DigestClip` set). -/
def c4Digest : Digest :=
  { id := "d1", userId := "u1", status := .ready, episodeIds := ["e1"],
    narratorScript := some "script", audioUrl := some "/audio/d1.mp3",
    duration := some 400 }

def c4Table : List DigestClipRow := [DigestClipRow.mk "d1" "c9" 0]

def c4Env : CurEnv := ⟨.ok ⟨["c2"], "because", ["topic"]⟩⟩

def c4Data : CurationJobData := ⟨"d1", "u1", ["e1"], ["ai"], none, none⟩

/-- One candidate clip row for the C6 witness. -/
def mkC6Row (id : String) (score : ℚ) : ClipRow :=
  ⟨{ id := id, episodeId := "e1", startTime := 0, endTime := 60,
     duration := 60, transcript := "t", relevanceScore := score,
     reasoning := none, summary := none }, "E", "p", "P"⟩

/-- Ten candidates with distinct, descending scores. -/
def c6Rows : List ClipRow :=
  [mkC6Row "c01" 100, mkC6Row "c02" 95, mkC6Row "c03" 90, mkC6Row "c04" 85,
   mkC6Row "c05" 80, mkC6Row "c06" 75, mkC6Row "c07" 70, mkC6Row "c08" 65,
   mkC6Row "c09" 60, mkC6Row "c10" 55]

/-- An LLM selection with three valid and two non-existent clip ids. -/
def c6Out : CurationOutput :=
  ⟨["c02", "c04", "bogus1", "c06", "bogus2"], "r", ["t"]⟩

def c6Env : CurEnv := ⟨.ok c6Out⟩

def c6Data : CurationJobData := ⟨"d6", "u1", ["e1"], [], none, none⟩

def c6Digest : Digest :=
  { id := "d6", userId := "u1", status := .curating, episodeIds := ["e1"] }

/-- An LLM selection that repeats the same valid clip id: the second
`digestClip.create` for `c02` collides with the first on the
`UNIQUE ("digestId", "clipId")` index. -/
def c6DupEnv : CurEnv := ⟨.ok ⟨["c02", "c02"], "r", ["t"]⟩⟩

/-!
## Claim C9: failures set the owning entity to `failed` and re-raise
-/

/-- An episode mid-download, used to exhibit the busy fast-fail. -/
def c9Episode : Episode :=
  { id := "e9", title := "T", audioUrl := "u", status := .downloading }

/-- A digest environment all of whose oracles fail. -/
def c9DEnv : DigestEnv :=
  ⟨fun _ => .error "parse failed", .error "llm failed", fun _ => "",
    fun _ => .error "tts failed", fun _ => .error "download failed",
    FFmpegEnv.mk id (fun f _ _ => f), fun _ => AudioFile.mk 0 0⟩

def c9Digest : Digest := { id := "d9", userId := "u", status := .pending }

def c9DData : DigestJobData := ⟨"d9", "u", [], "p9", [], false, none⟩

/-- A transcription environment whose download fails. -/
def c9wEnv : TransEnv :=
  ⟨FFmpegEnv.mk id (fun f _ _ => f), .error "network down",
    fun _ => .error "stt unavailable"⟩

/-!
## Theorems
-/

theorem insertLe_perm {α : Type} (le : α → α → Bool) (a : α) (l : List α) :
    (insertLe le a l).Perm (a :: l) := by
  induction l with
  | nil => simp [insertLe]
  | cons b bs ih =>
    simp only [insertLe]
    split
    · exact List.Perm.refl _
    · exact (List.Perm.cons b ih).trans (List.Perm.swap a b bs)

theorem jsSortBy_perm {α : Type} (le : α → α → Bool) (l : List α) :
    (jsSortBy le l).Perm l := by
  induction l with
  | nil => simp [jsSortBy]
  | cons a as ih =>
    simp only [jsSortBy, List.foldr] at *
    exact (insertLe_perm le a _).trans (List.Perm.cons a ih)

theorem insertLe_pairwise {α : Type} (le : α → α → Bool)
    (htrans : ∀ a b c, le a b = true → le b c = true → le a c = true)
    (htot : ∀ a b, le a b = true ∨ le b a = true) (a : α) (l : List α)
    (hl : l.Pairwise (fun x y => le x y = true)) :
    (insertLe le a l).Pairwise (fun x y => le x y = true) := by
  induction l with
  | nil => simp [insertLe]
  | cons b bs ih =>
    rcases hl with _ | ⟨hb, hbs⟩
    simp only [insertLe]
    split
    · rename_i hab
      refine List.Pairwise.cons ?_ (List.Pairwise.cons hb hbs)
      intro x hx
      rcases List.mem_cons.mp hx with h | h
      · exact h ▸ hab
      · exact htrans a b x hab (hb x h)
    · rename_i hab
      have hba : le b a = true := by
        rcases htot a b with h | h
        · exact absurd h hab
        · exact h
      refine List.Pairwise.cons ?_ (ih hbs)
      intro x hx
      have := (insertLe_perm le a bs).mem_iff.mp hx
      rcases List.mem_cons.mp this with h | h
      · exact h ▸ hba
      · exact hb x h

theorem jsSortBy_pairwise {α : Type} (le : α → α → Bool)
    (htrans : ∀ a b c, le a b = true → le b c = true → le a c = true)
    (htot : ∀ a b, le a b = true ∨ le b a = true) (l : List α) :
    (jsSortBy le l).Pairwise (fun x y => le x y = true) := by
  induction l with
  | nil => simp [jsSortBy]
  | cons a as ih =>
    simp only [jsSortBy, List.foldr] at *
    exact insertLe_pairwise le htrans htot a _ ih

/-- The seed of a running `max` fold is bounded by the result. -/
theorem le_foldl_max {α : Type} (f : α → ℚ) (l : List α) (init : ℚ) :
    init ≤ l.foldl (fun acc y => max acc (f y)) init := by
  induction l generalizing init with
  | nil => exact le_refl _
  | cons a as ih =>
    calc init ≤ max init (f a) := le_max_left _ _
      _ ≤ as.foldl (fun acc y => max acc (f y)) (max init (f a)) := ih _

/-- Helper characterisation of a running `max` fold: every mapped value is
bounded by the result. -/
theorem foldl_max_le {α : Type} (f : α → ℚ) (l : List α) (init : ℚ) :
    ∀ x ∈ l, f x ≤ l.foldl (fun acc y => max acc (f y)) init := by
  induction l generalizing init with
  | nil => intro x hx; cases hx
  | cons a as ih =>
    intro x hx
    rcases List.mem_cons.mp hx with h | h
    · subst h
      calc f x ≤ max init (f x) := le_max_right _ _
        _ ≤ as.foldl (fun acc y => max acc (f y)) (max init (f x)) :=
          le_foldl_max _ _ _
    · exact ih (max init (f a)) x h

/-- A running `max` fold returns its seed or an attained value. -/
theorem foldl_max_attained {α : Type} (f : α → ℚ) (l : List α) (init : ℚ) :
    l.foldl (fun acc y => max acc (f y)) init = init ∨
      ∃ x ∈ l, l.foldl (fun acc y => max acc (f y)) init = f x := by
  induction l generalizing init with
  | nil => exact Or.inl rfl
  | cons a as ih =>
    rcases ih (max init (f a)) with h | ⟨x, hx, hfx⟩
    · by_cases hcmp : init ≤ f a
      · refine Or.inr ⟨a, List.mem_cons_self a as, ?_⟩
        simpa [List.foldl, max_eq_right hcmp] using h
      · left
        simpa [List.foldl, max_eq_left (le_of_not_le hcmp)] using h
    · exact Or.inr ⟨x, List.mem_cons_of_mem a hx, hfx⟩

theorem stitchLoop_eq_specInterleave (cs ts : List String)
    (hne : cs ≠ []) (hlen : ts.length = cs.length - 1) :
    stitchLoop cs ts = specInterleave cs ts := by
  induction cs generalizing ts with
  | nil => exact absurd rfl hne
  | cons c cs ih =>
    cases cs with
    | nil =>
      have : ts.length = 0 := by simpa using hlen
      have hts : ts = [] := List.eq_nil_of_length_eq_zero this
      subst hts
      simp [stitchLoop, specInterleave]
    | cons c2 cs2 =>
      have hlen2 : ts.length = cs2.length + 1 := by simpa using hlen
      cases ts with
      | nil => simp at hlen2
      | cons t ts2 =>
        have hlen3 : ts2.length = (c2 :: cs2).length - 1 := by
          simpa using hlen2
        simp only [stitchLoop, specInterleave]
        exact congrArg (fun l => c :: t :: l)
          (ih ts2 (by simp) hlen3)

/-- **C7** (confirmed).  For a digest with `N ≥ 1` extracted clip files and
exactly `N - 1` narrator transitions, `stitchDigest` concatenates the audio
in exactly the order `intro, clip[0], transition[0], clip[1], …,
transition[N-2], clip[N-1], outro`. -/
theorem stitchSequence_order_spec (introPath outroPath : String)
    (clipPaths transitionPaths : List String) (hne : clipPaths ≠ [])
    (hlen : transitionPaths.length = clipPaths.length - 1) :
    stitchSequence introPath transitionPaths outroPath clipPaths =
      (introPath :: specInterleave clipPaths transitionPaths) ++ [outroPath] := by
  unfold stitchSequence
  rw [stitchLoop_eq_specInterleave clipPaths transitionPaths hne hlen]

/-- Witness for C7: the six-clip, five-transition scenario of the spec. -/
theorem stitchSequence_order_spec_witness :
    ["t0", "t1", "t2", "t3", "t4"].length =
      ["c0", "c1", "c2", "c3", "c4", "c5"].length - 1 ∧
    stitchSequence "intro" ["t0", "t1", "t2", "t3", "t4"] "outro"
        ["c0", "c1", "c2", "c3", "c4", "c5"] =
      ("intro" :: specInterleave ["c0", "c1", "c2", "c3", "c4", "c5"]
        ["t0", "t1", "t2", "t3", "t4"]) ++ ["outro"] :=
  ⟨by decide,
    stitchSequence_order_spec "intro" "outro" _ _ (by decide) (by decide)⟩

/-!
## Claim C8: the strict size check and the single-chunk fast path
-/

/-- **C8** (confirmed).  A file whose size is at most (in particular,
exactly) the 25 MiB STT limit is treated as not needing chunking:
`needsChunking` is `false` (the comparison is strict `>`), and
`prepareAudioForWhisper` returns the original file as the single chunk with
`startTime 0`, leaving the file system untouched (no compression). -/
theorem prepareAudioForWhisper_under_limit_single_chunk
    (env : FFmpegEnv) (fs : FS) (inputPath outputDir : String)
    (options : ChunkingOptions) (f : AudioFile)
    (hread : fs.read inputPath = some f)
    (hsize : f.size ≤ WHISPER_MAX_FILE_SIZE) :
    needsChunking fs inputPath = .ok false ∧
    prepareAudioForWhisper env fs inputPath outputDir options =
      .ok ([AudioChunk.mk 0 inputPath 0 f.duration f.duration], fs) := by
  have hgt : ¬ f.size > WHISPER_MAX_FILE_SIZE := not_lt.mpr hsize
  constructor
  · simp [needsChunking, getFileSize, hread, hgt]
  · simp [prepareAudioForWhisper, getFileSize, getAudioInfo, hread, hsize]

/-- Witness for C8 at a file of exactly 25 MiB. -/
theorem prepareAudioForWhisper_under_limit_single_chunk_witness :
    (FS.read [("/tmp/a.mp3", AudioFile.mk (25 * 1024 * 1024) 1080)]
        "/tmp/a.mp3" = some (AudioFile.mk (25 * 1024 * 1024) 1080)) ∧
    (AudioFile.mk (25 * 1024 * 1024) 1080).size = WHISPER_MAX_FILE_SIZE ∧
    needsChunking [("/tmp/a.mp3", AudioFile.mk (25 * 1024 * 1024) 1080)]
        "/tmp/a.mp3" = .ok false ∧
    prepareAudioForWhisper (FFmpegEnv.mk id (fun f _ _ => f))
        [("/tmp/a.mp3", AudioFile.mk (25 * 1024 * 1024) 1080)]
        "/tmp/a.mp3" "/tmp/chunks" {} =
      .ok ([AudioChunk.mk 0 "/tmp/a.mp3" 0 1080 1080],
        [("/tmp/a.mp3", AudioFile.mk (25 * 1024 * 1024) 1080)]) :=
  ⟨by decide, by decide,
    (prepareAudioForWhisper_under_limit_single_chunk
      (FFmpegEnv.mk id (fun f _ _ => f))
      [("/tmp/a.mp3", AudioFile.mk (25 * 1024 * 1024) 1080)]
      "/tmp/a.mp3" "/tmp/chunks" {} (AudioFile.mk (25 * 1024 * 1024) 1080)
      (by decide) (by decide)).1,
    (prepareAudioForWhisper_under_limit_single_chunk
      (FFmpegEnv.mk id (fun f _ _ => f))
      [("/tmp/a.mp3", AudioFile.mk (25 * 1024 * 1024) 1080)]
      "/tmp/a.mp3" "/tmp/chunks" {} (AudioFile.mk (25 * 1024 * 1024) 1080)
      (by decide) (by decide)).2⟩

/-!
## Claim C1: compression + chunking path
-/

theorem FS.read_write_self (fs : FS) (p : String) (f : AudioFile) :
    (fs.write p f).read p = some f := by
  simp [FS.read, FS.write, List.lookup]

theorem FS.read_unlink_self (fs : FS) (p : String) :
    (fs.unlink p).read p = none := by
  induction fs with
  | nil => rfl
  | cons q rest ih =>
    by_cases hq : q.1 = p
    · simpa [FS.unlink, List.filter_cons, hq] using ih
    · have hpq : (p == q.1) = false := by
        simp only [beq_eq_false_iff_ne, ne_eq]
        exact fun h => hq h.symm
      simpa [FS.unlink, List.filter_cons, hq, FS.read, List.lookup, hpq]
        using ih

/-- **C1** (code bug).  When the source file is over the STT limit and its
64 kbps re-encode is still over the limit, `prepareAudioForWhisper` unlinks
`compressed.mp3` and then calls `splitAudioIntoChunks` **on the deleted
path**, so the probe of that path fails and the whole call throws instead
of returning the non-empty overlapping chunk list the claim (and the
function's own documentation) describe. -/
theorem prepareAudioForWhisper_doubly_oversized_errors
    (env : FFmpegEnv) (fs : FS) (inputPath outputDir : String)
    (options : ChunkingOptions) (f : AudioFile)
    (hread : fs.read inputPath = some f)
    (hsize : WHISPER_MAX_FILE_SIZE < f.size)
    (hcomp : WHISPER_MAX_FILE_SIZE < (env.compress64 f).size) :
    prepareAudioForWhisper env fs inputPath outputDir options =
      .error ("FFprobe exited with code 1: no such file: " ++
        (outputDir ++ "/compressed.mp3")) := by
  have h1 : ¬ f.size ≤ WHISPER_MAX_FILE_SIZE := not_le.mpr hsize
  have h2 : ¬ (env.compress64 f).size ≤ WHISPER_MAX_FILE_SIZE :=
    not_le.mpr hcomp
  have hw := FS.read_write_self fs (outputDir ++ "/compressed.mp3")
    (env.compress64 f)
  have hu := FS.read_unlink_self
    (fs.write (outputDir ++ "/compressed.mp3") (env.compress64 f))
    (outputDir ++ "/compressed.mp3")
  simp [prepareAudioForWhisper, getFileSize, hread, h1,
    tryCompressForWhisper, compressAudio, hw, h2,
    splitAudioIntoChunks, getAudioInfo, hu]

/-- Witness for C1: a 120 MB download whose 64 kbps re-encode halves the
size to 60 MB, still over the 25 MiB limit. -/
theorem prepareAudioForWhisper_doubly_oversized_errors_witness :
    (FS.read [("/tmp/in.mp3", AudioFile.mk 125829120 3600)] "/tmp/in.mp3" =
      some (AudioFile.mk 125829120 3600)) ∧
    WHISPER_MAX_FILE_SIZE < (AudioFile.mk 125829120 3600).size ∧
    prepareAudioForWhisper
        (FFmpegEnv.mk (fun g => AudioFile.mk (g.size / 2) g.duration)
          (fun g _ _ => g))
        [("/tmp/in.mp3", AudioFile.mk 125829120 3600)]
        "/tmp/in.mp3" "/tmp/chunks" {} =
      .error ("FFprobe exited with code 1: no such file: " ++
        ("/tmp/chunks" ++ "/compressed.mp3")) :=
  ⟨by decide, by decide,
    prepareAudioForWhisper_doubly_oversized_errors
      (FFmpegEnv.mk (fun g => AudioFile.mk (g.size / 2) g.duration)
        (fun g _ _ => g))
      [("/tmp/in.mp3", AudioFile.mk 125829120 3600)]
      "/tmp/in.mp3" "/tmp/chunks" {} (AudioFile.mk 125829120 3600)
      (by decide) (by decide) (by decide)⟩

/-- **C5, counterexample to the claim as stated.**  The claim says the
merged `text` is the chunk texts joined by single spaces, and the merged
`duration` is the maximum over chunks of `chunkStart` plus the reported
transcript duration when present.  On a single chunk whose text is
`"hello "` (trailing space) and whose reported duration is `0` (present),
the code trims the joined text to `"hello"` and, because `0` is falsy under
`||`, uses the chunk's own duration `5`, giving `10 + 5 = 15 ≠ 10 + 0`. -/
theorem mergeTranscriptChunks_claim_counterexample :
    (mergeTranscriptChunks [(c5Chunk, c5Trans)] "en").text ≠
      String.intercalate " " [c5Trans.text] ∧
    (mergeTranscriptChunks [(c5Chunk, c5Trans)] "en").duration ≠
      c5Chunk.startTime + 0 := by
  constructor
  · decide
  · show (mergeTranscriptChunks [(c5Chunk, c5Trans)] "en").duration ≠ 10 + 0
    norm_num [mergeTranscriptChunks, jsNumOr, c5Chunk, c5Trans]

/-- **C5** (corrected).  For every non-empty chunk list, the merged
transcript's segments are exactly the input segments offset by their
chunk's `startTime` (as a multiset) and are sorted by `start` ascending;
the text is the chunk texts joined by single spaces **and trimmed**; the
language is the caller's detected language; and the duration is the
smallest value that is `≥ 0` and `≥ chunkStart + (reported duration when
present and non-zero, else the chunk duration)` for every chunk — i.e. the
running maximum seeded with `0`, using JS truthiness for the reported
duration. -/
theorem mergeTranscriptChunks_spec
    (chunks : List (AudioChunk × TranscriptChunk)) (lang : String)
    (hne : chunks ≠ []) :
    (mergeTranscriptChunks chunks lang).segments.Perm
      ((chunks.map (fun p => p.2.segments.map (fun s =>
        TranscriptSegment.mk (s.start + p.1.startTime)
          (s.stop + p.1.startTime) s.text))).flatten) ∧
    (mergeTranscriptChunks chunks lang).segments.Pairwise
      (fun a b => a.start ≤ b.start) ∧
    (mergeTranscriptChunks chunks lang).text =
      jsTrim (String.intercalate " " (chunks.map (fun p => p.2.text))) ∧
    (mergeTranscriptChunks chunks lang).language = lang ∧
    (∀ p ∈ chunks, p.1.startTime + jsNumOr p.2.duration p.1.duration ≤
      (mergeTranscriptChunks chunks lang).duration) ∧
    ((mergeTranscriptChunks chunks lang).duration = 0 ∨
      ∃ p ∈ chunks, (mergeTranscriptChunks chunks lang).duration =
        p.1.startTime + jsNumOr p.2.duration p.1.duration) := by
  refine ⟨?_, ?_, rfl, rfl, ?_, ?_⟩
  · exact jsSortBy_perm segStartLe _
  · have h := jsSortBy_pairwise segStartLe
      (fun a b c h1 h2 => by
        simp only [segStartLe, decide_eq_true_eq] at *
        exact le_trans h1 h2)
      (fun a b => by
        simp only [segStartLe, decide_eq_true_eq]
        exact le_total a.start b.start)
      ((chunks.map (fun p => p.2.segments.map (fun s =>
        TranscriptSegment.mk (s.start + p.1.startTime)
          (s.stop + p.1.startTime) s.text))).flatten)
    exact h.imp (by
      intro a b hab
      simpa [segStartLe, decide_eq_true_eq] using hab)
  · have h := foldl_max_le
      (fun p : AudioChunk × TranscriptChunk =>
        p.1.startTime + jsNumOr p.2.duration p.1.duration) chunks 0
    simpa only [mergeTranscriptChunks] using h
  · have h := foldl_max_attained
      (fun p : AudioChunk × TranscriptChunk =>
        p.1.startTime + jsNumOr p.2.duration p.1.duration) chunks 0
    simpa only [mergeTranscriptChunks] using h

/-- Witness for C5 at a concrete two-chunk input. -/
theorem mergeTranscriptChunks_spec_witness :
    (([(AudioChunk.mk 0 "p0.mp3" 0 5 5,
        TranscriptChunk.mk "a" [TranscriptSegment.mk 0 2 "a"] (some "en") (some 5)),
       (AudioChunk.mk 1 "p1.mp3" 3 8 5,
        TranscriptChunk.mk "b" [TranscriptSegment.mk 0 2 "b"] (some "en") (some 5))] :
      List (AudioChunk × TranscriptChunk)) ≠ []) ∧
    ((mergeTranscriptChunks
      [(AudioChunk.mk 0 "p0.mp3" 0 5 5,
        TranscriptChunk.mk "a" [TranscriptSegment.mk 0 2 "a"] (some "en") (some 5)),
       (AudioChunk.mk 1 "p1.mp3" 3 8 5,
        TranscriptChunk.mk "b" [TranscriptSegment.mk 0 2 "b"] (some "en") (some 5))]
      "en").segments.Pairwise (fun a b => a.start ≤ b.start)) :=
  ⟨by decide,
    (mergeTranscriptChunks_spec
      [(AudioChunk.mk 0 "p0.mp3" 0 5 5,
        TranscriptChunk.mk "a" [TranscriptSegment.mk 0 2 "a"] (some "en") (some 5)),
       (AudioChunk.mk 1 "p1.mp3" 3 8 5,
        TranscriptChunk.mk "b" [TranscriptSegment.mk 0 2 "b"] (some "en") (some 5))]
      "en" (by decide)).2.1⟩

/-!
## Claim C10: interest fallback in the analysis prompt
-/

/-- **C10** (confirmed).  When the analysis job payload carries an empty
`userInterests` list, the LLM prompt input is built from the interests
stored on the `User` row; when the payload list is non-empty, the payload
list is used (the stored interests do not enter the prompt input). -/
theorem analysisWorker_interest_fallback (env : AnalysisEnv)
    (r : EpisodeWithPodcast) (u : User) (clipTable : List Clip)
    (data : AnalysisJobData) (t : Transcript)
    (h1 : r.episode.status ≠ .analyzed)
    (h2 : r.episode.transcript = some t)
    (h3 : r.episode.status ≠ .analyzing) :
    (data.userInterests = [] →
      (analysisWorker env (some r) (some u) clipTable data).effects.get? 1 =
        some (AEff.llmCall (ClipSelectionInput.mk r.episode.title
          r.podcastTitle
          (ClipSelectionTranscript.mk t.text t.segments t.duration)
          u.interests))) ∧
    (data.userInterests ≠ [] →
      (analysisWorker env (some r) (some u) clipTable data).effects.get? 1 =
        some (AEff.llmCall (ClipSelectionInput.mk r.episode.title
          r.podcastTitle
          (ClipSelectionTranscript.mk t.text t.segments t.duration)
          data.userInterests))) := by
  constructor
  · intro hd
    cases hll : env.llm with
    | error e => simp [analysisWorker, h1, h2, h3, hll, hd]
    | ok out => simp [analysisWorker, h1, h2, h3, hll, hd]
  · intro hd
    have hlen : data.userInterests.length > 0 := List.length_pos.mpr hd
    cases hll : env.llm with
    | error e => simp [analysisWorker, h1, h2, h3, hll, hlen]
    | ok out => simp [analysisWorker, h1, h2, h3, hll, hlen]

/-- Witness for C10: one run with an empty payload list (stored interests
used) and one with a non-empty payload list (payload used). -/
theorem analysisWorker_interest_fallback_witness :
    ((analysisWorker (AnalysisEnv.mk (.ok ⟨[]⟩)) (some c3Row) (some c3User)
        [] (AnalysisJobData.mk "ep1" "u1" [])).effects.get? 1 =
      some (AEff.llmCall (ClipSelectionInput.mk c3Episode.title "P"
        (ClipSelectionTranscript.mk "txt" [] (some 100)) c3User.interests))) ∧
    ((analysisWorker (AnalysisEnv.mk (.ok ⟨[]⟩)) (some c3Row) (some c3User)
        [] (AnalysisJobData.mk "ep1" "u1" ["rust"])).effects.get? 1 =
      some (AEff.llmCall (ClipSelectionInput.mk c3Episode.title "P"
        (ClipSelectionTranscript.mk "txt" [] (some 100)) ["rust"]))) :=
  ⟨(analysisWorker_interest_fallback (AnalysisEnv.mk (.ok ⟨[]⟩)) c3Row c3User
      [] (AnalysisJobData.mk "ep1" "u1" [])
      (Transcript.mk "txt" [] (some "en") (some 100))
      (by decide) (by decide) (by decide)).1 (by decide),
   (analysisWorker_interest_fallback (AnalysisEnv.mk (.ok ⟨[]⟩)) c3Row c3User
      [] (AnalysisJobData.mk "ep1" "u1" ["rust"])
      (Transcript.mk "txt" [] (some "en") (some 100))
      (by decide) (by decide) (by decide)).2 (by decide)⟩

/-!
## Claim C3: clip validation in the analysis stage
-/

/-- Every member of a list appears in its `enum`. -/
theorem exists_mem_enumFrom {α : Type} (l : List α) (c : α) (hc : c ∈ l) :
    ∀ n, ∃ i, (i, c) ∈ l.enumFrom n := by
  induction l with
  | nil => cases hc
  | cons a as ih =>
    intro n
    rcases List.mem_cons.mp hc with h | h
    · exact ⟨n, by simp [List.enumFrom, h]⟩
    · rcases ih h (n + 1) with ⟨i, hi⟩
      exact ⟨i, by simp [List.enumFrom]; right; exact hi⟩

/-- **C3, counterexample to the claim as stated.**  The analysis worker
performs no range validation: an LLM-returned clip with
`endTime (40) ≤ startTime (50)` is persisted, violating
`0 ≤ startTime < endTime ≤ transcript.duration`. -/
theorem analysisWorker_persists_invalid_clip :
    ∃ c ∈ (analysisWorker c3Env (some c3Row) (some c3User) [] c3Data).clipTable,
      c.endTime ≤ c.startTime := by
  refine ⟨Clip.mk (genClipId "ep1" 0) "ep1" 50 40 (40 - 50) "bad" 90
    (some "r") (some "s"), ?_, by decide⟩
  simp [analysisWorker, c3Env, c3Row, c3User, c3Data, c3Episode,
    createdClips, genClipId, List.enum, List.enumFrom]

/-- **C3** (corrected).  The analysis stage drops nothing: on a successful
LLM call it replaces the episode's clips with **every** LLM-returned clip
verbatim (`duration := endTime - startTime`), performing no range
validation, so out-of-range and inverted clips are persisted too. -/
theorem analysisWorker_no_validation_spec (env : AnalysisEnv)
    (r : EpisodeWithPodcast) (u : User) (clipTable : List Clip)
    (data : AnalysisJobData) (t : Transcript) (out : ClipSelectionOutput)
    (h1 : r.episode.status ≠ .analyzed)
    (h2 : r.episode.transcript = some t)
    (h3 : r.episode.status ≠ .analyzing)
    (hllm : env.llm = .ok out) :
    (analysisWorker env (some r) (some u) clipTable data).clipTable =
      clipTable.filter (fun c => ¬ c.episodeId = data.episodeId) ++
        createdClips data.episodeId out ∧
    (createdClips data.episodeId out).length = out.clips.length ∧
    (∀ c ∈ out.clips,
      ∃ row ∈ (analysisWorker env (some r) (some u) clipTable data).clipTable,
        row.episodeId = data.episodeId ∧ row.startTime = c.startTime ∧
        row.endTime = c.endTime ∧ row.duration = c.endTime - c.startTime ∧
        row.transcript = c.transcript) := by
  have htab : (analysisWorker env (some r) (some u) clipTable data).clipTable =
      clipTable.filter (fun c => ¬ c.episodeId = data.episodeId) ++
        createdClips data.episodeId out := by
    simp [analysisWorker, h1, h2, h3, hllm]
  refine ⟨htab, by simp [createdClips], ?_⟩
  intro c hc
  rcases exists_mem_enumFrom out.clips c hc 0 with ⟨i, hi⟩
  refine ⟨{ id := genClipId data.episodeId i
            episodeId := data.episodeId
            startTime := c.startTime
            endTime := c.endTime
            duration := c.endTime - c.startTime
            transcript := c.transcript
            relevanceScore := c.relevanceScore
            reasoning := some c.reasoning
            summary := some c.summary }, ?_, rfl, rfl, rfl, rfl, rfl⟩
  rw [htab]
  refine List.mem_append_right _ ?_
  have : (i, c) ∈ out.clips.enum := by simpa [List.enum] using hi
  exact List.mem_map_of_mem (fun p =>
    ({ id := genClipId data.episodeId p.1
       episodeId := data.episodeId
       startTime := p.2.startTime
       endTime := p.2.endTime
       duration := p.2.endTime - p.2.startTime
       transcript := p.2.transcript
       relevanceScore := p.2.relevanceScore
       reasoning := some p.2.reasoning
       summary := some p.2.summary } : Clip)) this

/-- Witness for C3 at the concrete counterexample fixtures. -/
theorem analysisWorker_no_validation_spec_witness :
    (analysisWorker c3Env (some c3Row) (some c3User) [] c3Data).clipTable =
      ([] : List Clip).filter (fun c => ¬ c.episodeId = c3Data.episodeId) ++
        createdClips c3Data.episodeId ⟨[LLMClip.mk 50 40 "bad" 90 "r" "s"]⟩ :=
  (analysisWorker_no_validation_spec c3Env c3Row c3User [] c3Data
    (Transcript.mk "txt" [] (some "en") (some 100))
    ⟨[LLMClip.mk 50 40 "bad" 90 "r" "s"]⟩
    (by decide) (by decide) (by decide) rfl).1

/-- **C2, counterexample to the claim as stated.**  The claim says an
episode whose status is `analyzed` (or `analyzing`, or whose transcript is
present) gets its stored transcript back with no re-download and no
re-transcription.  The worker's dedup check only tests for `transcribed`:
on an `analyzed` episode it re-downloads and re-transcribes, returning the
fresh transcript instead of the stored one. -/
theorem transcriptionWorker_analyzed_retranscribes :
    TEff.download ∈ (transcriptionWorker c2Env [] (some c2Episode) c2Data).effects ∧
    (transcriptionWorker c2Env [] (some c2Episode) c2Data).result =
      .ok ⟨"ep2", some (Transcript.mk "new" [] (some "en") (some 60))⟩ ∧
    some (Transcript.mk "new" [] (some "en") (some 60)) ≠ c2Episode.transcript :=
  ⟨by decide, rfl, by decide⟩

/-- **C2** (corrected).  The transcription stage's dedup covers exactly the
`transcribed` status: then it returns the stored transcript with no
external effect and no row or file-system change.  For `downloading` or
`transcribing` it fails fast with a busy error, again with no effect.
Episodes in any other status (including `analyzing` and `analyzed`, even
with a stored transcript) are re-processed, as the counterexample shows. -/
theorem transcriptionWorker_dedup_spec (env : TransEnv) (fs : FS)
    (ep : Episode) (data : TranscriptionJobData) :
    (ep.status = .transcribed →
      transcriptionWorker env fs (some ep) data =
        ⟨.ok ⟨data.episodeId, ep.transcript⟩, some ep, fs, []⟩) ∧
    ((ep.status = .downloading ∨ ep.status = .transcribing) →
      (transcriptionWorker env fs (some ep) data).result =
        .error ("Episode " ++ data.episodeId ++
          " is already being processed") ∧
      (transcriptionWorker env fs (some ep) data).episode = some ep ∧
      (transcriptionWorker env fs (some ep) data).effects = []) := by
  constructor
  · intro h
    simp [transcriptionWorker, h]
  · intro h
    rcases h with h | h <;> simp [transcriptionWorker, h]

/-- Witness for C2: the `transcribed` fast path and the `downloading` busy
path at concrete inputs. -/
theorem transcriptionWorker_dedup_spec_witness :
    transcriptionWorker c2Env [] (some { c2Episode with status := .transcribed })
        c2Data =
      ⟨.ok ⟨"ep2", c2Episode.transcript⟩,
        some { c2Episode with status := .transcribed }, [], []⟩ ∧
    (transcriptionWorker c2Env []
      (some { c2Episode with status := .downloading }) c2Data).effects = [] :=
  ⟨(transcriptionWorker_dedup_spec c2Env []
      { c2Episode with status := .transcribed } c2Data).1 rfl,
   ((transcriptionWorker_dedup_spec c2Env []
      { c2Episode with status := .downloading } c2Data).2 (Or.inl rfl)).2.2⟩

/-- **C4, counterexample to the claim as stated.**  The curation worker has
no dedup check: run against a digest that already has a non-empty
`DigestClip` set and a narrator script, it still calls the LLM, replaces
the `DigestClip` rows, **clears** `narratorScript`, and moves the status to
`pending` — everything the claim says stays unchanged. -/
theorem curationWorker_rerun_not_noop :
    ((curationWorker c4Env (some c4Digest) [c4Row] c4Table c4Data).effects.any
      (fun e => match e with | CurEff.llmCall _ => true | _ => false)) = true ∧
    ((curationWorker c4Env (some c4Digest) [c4Row] c4Table c4Data).digest.map
      Digest.narratorScript) = some none ∧
    ((curationWorker c4Env (some c4Digest) [c4Row] c4Table c4Data).digest.map
      Digest.status) = some .pending ∧
    (curationWorker c4Env (some c4Digest) [c4Row] c4Table c4Data).digestClipTable ≠
      c4Table := by
  refine ⟨by decide, by decide, by decide, by decide⟩

/-- Helper: the one-step evaluation of a successful curation run (digest
found, at least one candidate, LLM call succeeds, no unique-index
violation during the row inserts). -/
theorem curationWorker_run_eq (env : CurEnv) (d : Digest)
    (clipRowTable : List ClipRow) (digestClipTable : List DigestClipRow)
    (data : CurationJobData) (out : CurationOutput)
    (hllm : env.llm = .ok out)
    (hne : clipRowTable.filter
      (fun r => data.episodeIds.contains r.clip.episodeId) ≠ [])
    (hins : (curationInsertLoop data.digestId
      (curationCandidatesOf clipRowTable data.episodeIds)
      (curationValidate (data.targetClipCount.getD (6, 8)).1
        (curationCandidatesOf clipRowTable data.episodeIds)
        out.selectedClipIds).enum [] 0).1 = none) :
    curationWorker env (some d) clipRowTable digestClipTable data =
      { result := .ok
          { digestId := data.digestId
            selectedClipIds := curationValidate (data.targetClipCount.getD (6, 8)).1
              (curationCandidatesOf clipRowTable data.episodeIds)
              out.selectedClipIds
            totalDuration := (curationInsertLoop data.digestId
              (curationCandidatesOf clipRowTable data.episodeIds)
              (curationValidate (data.targetClipCount.getD (6, 8)).1
                (curationCandidatesOf clipRowTable data.episodeIds)
                out.selectedClipIds).enum [] 0).2.2
            topicCoverage := out.topicCoverage
            reasoning := out.reasoning }
        digest := some { d with
          status := .pending
          episodeIds := data.episodeIds
          narratorScript := none }
        digestClipTable :=
          digestClipTable.filter (fun r => ¬ r.digestId = data.digestId) ++
            (curationInsertLoop data.digestId
              (curationCandidatesOf clipRowTable data.episodeIds)
              (curationValidate (data.targetClipCount.getD (6, 8)).1
                (curationCandidatesOf clipRowTable data.episodeIds)
                out.selectedClipIds).enum [] 0).2.1
        effects := [CurEff.updateStatus .curating,
            CurEff.llmCall
              { targetDuration := data.targetDuration.getD 420
                targetClipCountMin := (data.targetClipCount.getD (6, 8)).1
                targetClipCountMax := (data.targetClipCount.getD (6, 8)).2
                userInterests := data.userInterests
                candidates := curationCandidatesOf clipRowTable data.episodeIds }] ++
          [CurEff.deleteDigestClips] ++
          ((curationInsertLoop data.digestId
              (curationCandidatesOf clipRowTable data.episodeIds)
              (curationValidate (data.targetClipCount.getD (6, 8)).1
                (curationCandidatesOf clipRowTable data.episodeIds)
                out.selectedClipIds).enum [] 0).2.1).map CurEff.insertDigestClip ++
          [CurEff.updateDigest] } := by
  have hperm := jsSortBy_perm clipRowScoreDesc
    (clipRowTable.filter (fun r => data.episodeIds.contains r.clip.episodeId))
  have hl0 : ¬ (jsSortBy clipRowScoreDesc (clipRowTable.filter
      (fun r => data.episodeIds.contains r.clip.episodeId))).length = 0 := by
    intro h0
    exact hne (List.eq_nil_of_length_eq_zero (hperm.length_eq ▸ h0))
  rcases hexp : curationInsertLoop data.digestId
      (curationCandidatesOf clipRowTable data.episodeIds)
      (curationValidate (data.targetClipCount.getD (6, 8)).1
        (curationCandidatesOf clipRowTable data.episodeIds)
        out.selectedClipIds).enum [] 0 with ⟨o, rows, total⟩
  rw [hexp] at hins
  have ho : o = none := hins
  subst ho
  simp only [curationCandidatesOf] at hexp
  simp only [curationWorker, curationTry, hllm, curationCandidatesOf]
  rw [if_neg hl0]
  rw [hexp]
  rfl

/-- Helper: the one-step evaluation of a curation run that fails on the
unique-index violation while inserting the `DigestClip` rows (digest
found, at least one candidate, LLM call succeeds).  The deletion and the
partial rows persist; the digest keeps its `narratorScript` and ends
`failed`. -/
theorem curationWorker_run_fail_eq (env : CurEnv) (d : Digest)
    (clipRowTable : List ClipRow) (digestClipTable : List DigestClipRow)
    (data : CurationJobData) (out : CurationOutput) (e : String)
    (hllm : env.llm = .ok out)
    (hne : clipRowTable.filter
      (fun r => data.episodeIds.contains r.clip.episodeId) ≠ [])
    (hins : (curationInsertLoop data.digestId
      (curationCandidatesOf clipRowTable data.episodeIds)
      (curationValidate (data.targetClipCount.getD (6, 8)).1
        (curationCandidatesOf clipRowTable data.episodeIds)
        out.selectedClipIds).enum [] 0).1 = some e) :
    curationWorker env (some d) clipRowTable digestClipTable data =
      { result := .error e
        digest := some { d with status := .failed }
        digestClipTable :=
          digestClipTable.filter (fun r => ¬ r.digestId = data.digestId) ++
            (curationInsertLoop data.digestId
              (curationCandidatesOf clipRowTable data.episodeIds)
              (curationValidate (data.targetClipCount.getD (6, 8)).1
                (curationCandidatesOf clipRowTable data.episodeIds)
                out.selectedClipIds).enum [] 0).2.1
        effects := [CurEff.updateStatus .curating,
            CurEff.llmCall
              { targetDuration := data.targetDuration.getD 420
                targetClipCountMin := (data.targetClipCount.getD (6, 8)).1
                targetClipCountMax := (data.targetClipCount.getD (6, 8)).2
                userInterests := data.userInterests
                candidates := curationCandidatesOf clipRowTable data.episodeIds }] ++
          [CurEff.deleteDigestClips] ++
          ((curationInsertLoop data.digestId
              (curationCandidatesOf clipRowTable data.episodeIds)
              (curationValidate (data.targetClipCount.getD (6, 8)).1
                (curationCandidatesOf clipRowTable data.episodeIds)
                out.selectedClipIds).enum [] 0).2.1).map CurEff.insertDigestClip ++
          [CurEff.updateStatus .failed] } := by
  have hperm := jsSortBy_perm clipRowScoreDesc
    (clipRowTable.filter (fun r => data.episodeIds.contains r.clip.episodeId))
  have hl0 : ¬ (jsSortBy clipRowScoreDesc (clipRowTable.filter
      (fun r => data.episodeIds.contains r.clip.episodeId))).length = 0 := by
    intro h0
    exact hne (List.eq_nil_of_length_eq_zero (hperm.length_eq ▸ h0))
  rcases hexp : curationInsertLoop data.digestId
      (curationCandidatesOf clipRowTable data.episodeIds)
      (curationValidate (data.targetClipCount.getD (6, 8)).1
        (curationCandidatesOf clipRowTable data.episodeIds)
        out.selectedClipIds).enum [] 0 with ⟨o, rows, total⟩
  rw [hexp] at hins
  have ho : o = some e := hins
  subst ho
  simp only [curationCandidatesOf] at hexp
  simp only [curationWorker, curationTry, hllm, curationCandidatesOf]
  rw [if_neg hl0]
  rw [hexp]
  rfl

/-- **C4** (corrected).  Re-running curation is never a no-op: whenever the
digest exists, candidates exist and the LLM call succeeds, the worker
always performs a fresh LLM call and deletes the digest's existing
`DigestClip` rows; when the per-row creates raise no `DigestClip`
unique-index violation it replaces the rows with the newly selected ones,
clears `narratorScript`, and sets the status to `pending`; and when a
create does violate the index (a duplicated selected id) the run ends
`failed` with the partially inserted rows persisted and `narratorScript`
untouched. -/
theorem curationWorker_always_reruns (env : CurEnv) (d : Digest)
    (clipRowTable : List ClipRow) (digestClipTable : List DigestClipRow)
    (data : CurationJobData) (out : CurationOutput)
    (hllm : env.llm = .ok out)
    (hne : clipRowTable.filter
      (fun r => data.episodeIds.contains r.clip.episodeId) ≠ []) :
    (∃ pin, (curationWorker env (some d) clipRowTable digestClipTable
      data).effects.get? 1 = some (CurEff.llmCall pin)) ∧
    ((curationInsertLoop data.digestId
        (curationCandidatesOf clipRowTable data.episodeIds)
        (curationValidate (data.targetClipCount.getD (6, 8)).1
          (curationCandidatesOf clipRowTable data.episodeIds)
          out.selectedClipIds).enum [] 0).1 = none →
      (curationWorker env (some d) clipRowTable digestClipTable data).digest =
        some { d with
          status := .pending
          episodeIds := data.episodeIds
          narratorScript := none } ∧
      (curationWorker env (some d) clipRowTable digestClipTable
        data).digestClipTable =
        digestClipTable.filter (fun r => ¬ r.digestId = data.digestId) ++
          (curationInsertLoop data.digestId
            (curationCandidatesOf clipRowTable data.episodeIds)
            (curationValidate (data.targetClipCount.getD (6, 8)).1
              (curationCandidatesOf clipRowTable data.episodeIds)
              out.selectedClipIds).enum [] 0).2.1) ∧
    (∀ e, (curationInsertLoop data.digestId
        (curationCandidatesOf clipRowTable data.episodeIds)
        (curationValidate (data.targetClipCount.getD (6, 8)).1
          (curationCandidatesOf clipRowTable data.episodeIds)
          out.selectedClipIds).enum [] 0).1 = some e →
      (curationWorker env (some d) clipRowTable digestClipTable data).digest =
        some { d with status := .failed } ∧
      (curationWorker env (some d) clipRowTable digestClipTable
        data).digestClipTable =
        digestClipTable.filter (fun r => ¬ r.digestId = data.digestId) ++
          (curationInsertLoop data.digestId
            (curationCandidatesOf clipRowTable data.episodeIds)
            (curationValidate (data.targetClipCount.getD (6, 8)).1
              (curationCandidatesOf clipRowTable data.episodeIds)
              out.selectedClipIds).enum [] 0).2.1 ∧
      (curationWorker env (some d) clipRowTable digestClipTable data).result =
        .error e) := by
  refine ⟨?_, ?_, ?_⟩
  · rcases hexp : (curationInsertLoop data.digestId
        (curationCandidatesOf clipRowTable data.episodeIds)
        (curationValidate (data.targetClipCount.getD (6, 8)).1
          (curationCandidatesOf clipRowTable data.episodeIds)
          out.selectedClipIds).enum [] 0).1 with _ | e
    · rw [curationWorker_run_eq env d clipRowTable digestClipTable data out
        hllm hne hexp]
      exact ⟨_, rfl⟩
    · rw [curationWorker_run_fail_eq env d clipRowTable digestClipTable data
        out e hllm hne hexp]
      exact ⟨_, rfl⟩
  · intro hins
    rw [curationWorker_run_eq env d clipRowTable digestClipTable data out
      hllm hne hins]
    exact ⟨rfl, rfl⟩
  · intro e hins
    rw [curationWorker_run_fail_eq env d clipRowTable digestClipTable data
      out e hllm hne hins]
    exact ⟨rfl, rfl, rfl⟩

/-- Witness for C4 at the concrete fixtures (a duplicate-free selection, so
the insert loop succeeds). -/
theorem curationWorker_always_reruns_witness :
    (curationWorker c4Env (some c4Digest) [c4Row] c4Table c4Data).digest =
      some { c4Digest with
        status := .pending
        episodeIds := c4Data.episodeIds
        narratorScript := none } :=
  (((curationWorker_always_reruns c4Env c4Digest [c4Row] c4Table c4Data
    ⟨["c2"], "because", ["topic"]⟩ rfl (by decide)).2.1) (by decide)).1

/-- Every element of the greedy fill's output was already selected or is a
candidate id. -/
theorem curationFillLoop_mem (minC : Nat) :
    ∀ (cands : List CandidateClip) (sel : List String) (x : String),
      x ∈ curationFillLoop minC cands sel →
      x ∈ sel ∨ ∃ c ∈ cands, c.clipId = x
  | [], sel, x, hx => Or.inl (by simpa [curationFillLoop] using hx)
  | c :: rest, sel, x, hx => by
    cases hceq : sel.contains c.clipId with
    | true =>
      simp only [curationFillLoop, hceq, if_true] at hx
      split at hx
      · exact Or.inl hx
      · rcases curationFillLoop_mem minC rest sel x hx with h | ⟨c2, hc2, he⟩
        · exact Or.inl h
        · exact Or.inr ⟨c2, List.mem_cons_of_mem c hc2, he⟩
    | false =>
      simp only [curationFillLoop, hceq, Bool.false_eq_true, if_false] at hx
      have hsplit : ∀ y, y ∈ sel ++ [c.clipId] →
          y ∈ sel ∨ ∃ cc ∈ c :: rest, cc.clipId = y := by
        intro y hy
        rcases List.mem_append.mp hy with h | h
        · exact Or.inl h
        · exact Or.inr ⟨c, List.mem_cons_self c rest,
            (List.mem_singleton.mp h).symm⟩
      split at hx
      · exact hsplit x hx
      · rcases curationFillLoop_mem minC rest (sel ++ [c.clipId]) x hx with
          h | ⟨c2, hc2, he⟩
        · exact hsplit x h
        · exact Or.inr ⟨c2, List.mem_cons_of_mem c hc2, he⟩

/-- The conditional re-assignment of phase 4 is the plain filter by the
candidate-id set. -/
theorem curationValidate_eq (minC : Nat) (cands : List CandidateClip)
    (ids : List String) :
    curationValidate minC cands ids =
      if (ids.filter (fun id =>
          (cands.map (fun c => c.clipId)).contains id)).length < minC then
        curationFillLoop minC cands
          (ids.filter (fun id => (cands.map (fun c => c.clipId)).contains id))
      else ids.filter (fun id => (cands.map (fun c => c.clipId)).contains id) := by
  unfold curationValidate
  by_cases hinv : (ids.filter (fun id =>
      ¬ (cands.map (fun c => c.clipId)).contains id)).length > 0
  · simp only [hinv, if_true]
  · have h0 : ids.filter (fun id =>
        ¬ (cands.map (fun c => c.clipId)).contains id) = [] := by
      rcases Nat.eq_zero_or_pos (ids.filter (fun id =>
        ¬ (cands.map (fun c => c.clipId)).contains id)).length with h | h
      · exact List.eq_nil_of_length_eq_zero h
      · exact absurd h hinv
    have hall : ∀ id ∈ ids,
        ((cands.map (fun c => c.clipId)).contains id) = true := by
      intro id hid
      have := List.filter_eq_nil_iff.mp h0 id hid
      simpa using this
    have hfe : ids.filter (fun id =>
        (cands.map (fun c => c.clipId)).contains id) = ids :=
      List.filter_eq_self.mpr hall
    simp only [hinv, if_false, hfe]

/-- Every surviving id of phase 4 belongs to the candidate set. -/
theorem curationValidate_mem (minC : Nat) (cands : List CandidateClip)
    (ids : List String) :
    ∀ x ∈ curationValidate minC cands ids, ∃ c ∈ cands, c.clipId = x := by
  intro x hx
  rw [curationValidate_eq] at hx
  have hmemF : ∀ y ∈ ids.filter (fun id =>
      (cands.map (fun c => c.clipId)).contains id),
      ∃ c ∈ cands, c.clipId = y := by
    intro y hy
    have hcont := (List.mem_filter.mp hy).2
    have hy2 : y ∈ cands.map (fun c => c.clipId) := by
      simpa using hcont
    rcases List.mem_map.mp hy2 with ⟨c, hc, he⟩
    exact ⟨c, hc, he⟩
  split at hx
  · rcases curationFillLoop_mem minC cands _ x hx with h | h
    · exact hmemF x h
    · exact h
  · exact hmemF x hx

/-- Closed form of the greedy fill: append, in candidate order, the first
not-yet-selected candidate ids until the selection reaches `minC` (or the
candidates are exhausted). -/
theorem curationFillLoop_closed (minC : Nat) :
    ∀ (cands : List CandidateClip) (sel : List String),
      (cands.map (fun c => c.clipId)).Nodup → sel.length < minC →
      curationFillLoop minC cands sel =
        sel ++ ((cands.map (fun c => c.clipId)).filter
          (fun id => ! sel.contains id)).take (minC - sel.length)
  | [], sel, _, _ => by simp [curationFillLoop]
  | c :: rest, sel, hnd, hlt => by
    rw [List.map_cons] at hnd
    have hnd1 : c.clipId ∉ rest.map (fun x => x.clipId) :=
      (List.nodup_cons.mp hnd).1
    have hnd2 : (rest.map (fun x => x.clipId)).Nodup :=
      (List.nodup_cons.mp hnd).2
    cases hceq : sel.contains c.clipId with
    | true =>
      have hcm : c.clipId ∈ sel := by simpa using hceq
      have hfil : (c.clipId :: rest.map (fun x => x.clipId)).filter
          (fun id => ! sel.contains id) =
          (rest.map (fun x => x.clipId)).filter (fun id => ! sel.contains id) := by
        simp [List.filter_cons, hcm]
      have hstep : curationFillLoop minC (c :: rest) sel =
          curationFillLoop minC rest sel := by
        simp [curationFillLoop, hcm, not_le.mpr hlt]
      rw [hstep, curationFillLoop_closed minC rest sel hnd2 hlt,
        List.map_cons, hfil]
    | false =>
      have hcm : c.clipId ∉ sel := by simpa using hceq
      have hfil : (c.clipId :: rest.map (fun x => x.clipId)).filter
          (fun id => ! sel.contains id) =
          c.clipId :: (rest.map (fun x => x.clipId)).filter
            (fun id => ! sel.contains id) := by
        simp [List.filter_cons, hcm]
      by_cases hbreak : minC ≤ sel.length + 1
      · have hmc : minC - sel.length = 1 := by omega
        have hstep : curationFillLoop minC (c :: rest) sel =
            sel ++ [c.clipId] := by
          simp [curationFillLoop, hcm, hbreak]
        rw [hstep, List.map_cons, hfil, hmc]
        simp
      · have hlt1 : (sel ++ [c.clipId]).length < minC := by
          simp only [List.length_append, List.length_singleton]
          omega
        have hstep : curationFillLoop minC (c :: rest) sel =
            curationFillLoop minC rest (sel ++ [c.clipId]) := by
          simp [curationFillLoop, hcm, hbreak]
        have hcongr : (rest.map (fun x => x.clipId)).filter
            (fun id => ! (sel ++ [c.clipId]).contains id) =
            (rest.map (fun x => x.clipId)).filter
              (fun id => ! sel.contains id) := by
          refine List.filter_congr ?_
          intro x hx
          have hxc : x ≠ c.clipId := by
            intro h
            exact hnd1 (h ▸ hx)
          simp [List.contains, hxc]
        have hmc : minC - sel.length =
            (minC - (sel.length + 1)) + 1 := by omega
        rw [hstep, curationFillLoop_closed minC rest (sel ++ [c.clipId]) hnd2 hlt1]
        rw [hcongr, List.map_cons, hfil]
        have hlen1 : (sel ++ [c.clipId]).length = sel.length + 1 := by simp
        rw [hlen1, hmc, List.take_succ_cons]
        simp

/-- When every selected id has a candidate, the ids are pairwise distinct,
and none of them collides with an already-written row, the phase-5 loop
raises no unique-index violation and inserts one row per id, in order,
with `order` equal to the position. -/
theorem curationInsertLoop_rows (digestId : String) (cands : List CandidateClip) :
    ∀ (ids : List String) (n : Nat) (rows : List DigestClipRow) (total : Seconds),
      (∀ id ∈ ids, ∃ c ∈ cands, c.clipId = id) →
      ids.Nodup →
      (∀ id ∈ ids, ∀ r ∈ rows, ¬ (r.digestId = digestId ∧ r.clipId = id)) →
      (curationInsertLoop digestId cands (ids.enumFrom n) rows total).1 = none ∧
      (curationInsertLoop digestId cands (ids.enumFrom n) rows total).2.1 =
        rows ++ (ids.enumFrom n).map (fun p => DigestClipRow.mk digestId p.2 p.1)
  | [], n, rows, total, _, _, _ => by simp [List.enumFrom, curationInsertLoop]
  | id :: rest, n, rows, total, hall, hnd, hsafe => by
    rcases hall id (List.mem_cons_self id rest) with ⟨c, hc, he⟩
    have hfind : (cands.find? (fun x => x.clipId = id)).isSome := by
      rw [List.find?_isSome]
      exact ⟨c, hc, by simp [he]⟩
    have hidnot : id ∉ rest := (List.nodup_cons.mp hnd).1
    have hcoll : rows.any
        (fun r => r.digestId = digestId ∧ r.clipId = id) = false := by
      rw [List.any_eq_false]
      intro r hr
      simpa using hsafe id (List.mem_cons_self id rest) r hr
    have hsafe2 : ∀ i ∈ rest, ∀ r ∈ rows ++ [DigestClipRow.mk digestId id n],
        ¬ (r.digestId = digestId ∧ r.clipId = i) := by
      intro i hi r hr hcontra
      rcases List.mem_append.mp hr with h | h
      · exact hsafe i (List.mem_cons_of_mem id hi) r h hcontra
      · have hre : r = DigestClipRow.mk digestId id n := List.mem_singleton.mp h
        have hii : i = id := by
          have h2 := hcontra.2
          rw [hre] at h2
          exact h2.symm
        exact hidnot (hii ▸ hi)
    simp only [List.enumFrom, curationInsertLoop]
    cases hfd : cands.find? (fun x => x.clipId = id) with
    | none => rw [hfd] at hfind; simp at hfind
    | some c2 =>
      rw [hcoll]
      simp only [Bool.false_eq_true, if_false]
      have hrec := curationInsertLoop_rows digestId cands rest (n + 1)
        (rows ++ [DigestClipRow.mk digestId id n]) (total + c2.duration)
        (fun i hi => hall i (List.mem_cons_of_mem id hi))
        (List.nodup_cons.mp hnd).2 hsafe2
      refine ⟨hrec.1, ?_⟩
      rw [hrec.2]
      simp

/-- The validation output has no duplicate ids when the LLM selection has
none (the candidate ids are distinct by the clip table's primary key): the
filter of phase 4 preserves distinctness and the greedy fill only appends
not-yet-selected candidate ids. -/
theorem curationValidate_nodup (minC : Nat) (cands : List CandidateClip)
    (ids : List String)
    (hnodupC : (cands.map (fun c => c.clipId)).Nodup)
    (hids : ids.Nodup) :
    (curationValidate minC cands ids).Nodup := by
  rw [curationValidate_eq]
  have hvalidN : (ids.filter (fun id =>
      (cands.map (fun c => c.clipId)).contains id)).Nodup :=
    hids.filter _
  split
  case isTrue hless =>
    rw [curationFillLoop_closed minC cands _ hnodupC hless]
    refine List.Nodup.append hvalidN
      (List.Nodup.sublist (List.take_sublist _ _) (hnodupC.filter _)) ?_
    intro x hxv hxt
    have hxf := List.mem_of_mem_take hxt
    have hnc := (List.mem_filter.mp hxf).2
    have hdis : x ∉ ids ∨ ∀ c ∈ cands, ¬ c.clipId = x := by simpa using hnc
    have hxv2 := List.mem_filter.mp hxv
    rcases hdis with h | h
    · exact h hxv2.1
    · have hxm : x ∈ cands.map (fun c => c.clipId) := by simpa using hxv2.2
      rcases List.mem_map.mp hxm with ⟨c, hc, hce⟩
      exact h c hc hce
  case isFalse hge => exact hvalidN

/-- **C6, counterexample to the claim as stated.**  The claim says the
`DigestClip` rows are then inserted with `order` values `0..N-1` following
the selection order.  On an LLM selection that repeats a valid id
(`["c02", "c02"]`, filled up to six ids by the greedy loop), the second
`digestClip.create` for `c02` violates the schema's
`UNIQUE ("digestId", "clipId")` index: the run aborts mid-loop with only
the first row written (instead of rows `0..5`), the digest ends `failed`,
and the worker reports the constraint error. -/
theorem curationWorker_duplicate_id_aborts :
    ((curationWorker c6DupEnv (some c6Digest) c6Rows [] c6Data).digest.map
      Digest.status) = some .failed ∧
    (curationWorker c6DupEnv (some c6Digest) c6Rows [] c6Data).digestClipTable =
      [DigestClipRow.mk "d6" "c02" 0] ∧
    (curationWorker c6DupEnv (some c6Digest) c6Rows [] c6Data).result =
      .error "Unique constraint failed on the fields: (digestId,clipId)" :=
  ⟨by decide, by decide, rfl⟩

/-- **C6** (corrected).  After validation: every surviving clip id is in the
candidate set; the candidates are ranked by `relevanceScore` descending, so
when fewer than `min` ids survive the filter, the highest-scored unselected
candidate ids are appended in order until `min` is reached or the
candidates run out; and, provided the LLM selection repeats no clip id (as
the counterexample shows, a duplicated valid id makes the insert loop
violate the `DigestClip` unique index and abort), the `DigestClip` rows
are inserted with `order` values `0..N-1` following the selection order.
(The hypothesis `hnodup` is the database's primary-key uniqueness of clip
ids.) -/
theorem curationWorker_validation_spec (env : CurEnv) (d : Digest)
    (clipRowTable : List ClipRow) (digestClipTable : List DigestClipRow)
    (data : CurationJobData) (out : CurationOutput)
    (hllm : env.llm = .ok out)
    (hne : clipRowTable.filter
      (fun r => data.episodeIds.contains r.clip.episodeId) ≠ [])
    (hnodup : (clipRowTable.map (fun r => r.clip.id)).Nodup)
    (hsel : out.selectedClipIds.Nodup) :
    let cands := curationCandidatesOf clipRowTable data.episodeIds
    let minC := (data.targetClipCount.getD (6, 8)).1
    let valid := out.selectedClipIds.filter
      (fun id => (cands.map (fun c => c.clipId)).contains id)
    let sel := curationValidate minC cands out.selectedClipIds
    (∀ id ∈ sel, ∃ c ∈ cands, c.clipId = id) ∧
    cands.Pairwise (fun a b => b.relevanceScore ≤ a.relevanceScore) ∧
    (valid.length < minC →
      sel = valid ++ ((cands.map (fun c => c.clipId)).filter
        (fun id => ! valid.contains id)).take (minC - valid.length)) ∧
    (¬ valid.length < minC → sel = valid) ∧
    (∃ res, (curationWorker env (some d) clipRowTable digestClipTable
        data).result = .ok res ∧ res.selectedClipIds = sel) ∧
    (curationWorker env (some d) clipRowTable digestClipTable
        data).digestClipTable =
      digestClipTable.filter (fun r => ¬ r.digestId = data.digestId) ++
        sel.enum.map (fun p => DigestClipRow.mk data.digestId p.2 p.1) ∧
    (sel.enum.map (fun p => DigestClipRow.mk data.digestId p.2 p.1)).map
      (fun r => r.order) = List.range sel.length := by
  intro cands minC valid sel
  have hids : cands.map (fun c => c.clipId) =
      (jsSortBy clipRowScoreDesc (clipRowTable.filter
        (fun r => data.episodeIds.contains r.clip.episodeId))).map
        (fun r => r.clip.id) := by
    simp only [cands, curationCandidatesOf, List.map_map]
    rfl
  have hnodupC : (cands.map (fun c => c.clipId)).Nodup := by
    rw [hids]
    have hperm := (jsSortBy_perm clipRowScoreDesc (clipRowTable.filter
      (fun r => data.episodeIds.contains r.clip.episodeId))).map
      (fun r => r.clip.id)
    have hsub := (List.filter_sublist (p :=
      fun r => data.episodeIds.contains r.clip.episodeId) clipRowTable).map
      (fun r => r.clip.id)
    exact hperm.nodup_iff.mpr (List.Nodup.sublist hsub hnodup)
  have hmem : ∀ id ∈ sel, ∃ c ∈ cands, c.clipId = id :=
    curationValidate_mem minC cands out.selectedClipIds
  have hselN : sel.Nodup :=
    curationValidate_nodup minC cands out.selectedClipIds hnodupC hsel
  have hloop := curationInsertLoop_rows data.digestId cands sel 0 [] 0 hmem
    hselN (fun i _ r hr => absurd hr (List.not_mem_nil r))
  refine ⟨hmem, ?_, ?_, ?_, ?_, ?_, ?_⟩
  · -- candidates ranked by score descending
    have hp := jsSortBy_pairwise clipRowScoreDesc
      (fun a b c h1 h2 => by
        simp only [clipRowScoreDesc, decide_eq_true_eq] at *
        exact le_trans h2 h1)
      (fun a b => by
        simp only [clipRowScoreDesc, decide_eq_true_eq]
        exact le_total b.clip.relevanceScore a.clip.relevanceScore)
      (clipRowTable.filter (fun r => data.episodeIds.contains r.clip.episodeId))
    have hp2 : ((jsSortBy clipRowScoreDesc (clipRowTable.filter
        (fun r => data.episodeIds.contains r.clip.episodeId))).map
          toCandidate).Pairwise
        (fun a b => b.relevanceScore ≤ a.relevanceScore) :=
      List.Pairwise.map toCandidate
        (fun a b hab => by
          simpa [clipRowScoreDesc, toCandidate] using hab) hp
    exact hp2
  · intro hless
    have := curationValidate_eq minC cands out.selectedClipIds
    rw [if_pos hless] at this
    rw [show sel = curationValidate minC cands out.selectedClipIds from rfl,
      this]
    exact curationFillLoop_closed minC cands valid hnodupC hless
  · intro hge
    have := curationValidate_eq minC cands out.selectedClipIds
    rw [if_neg hge] at this
    exact this
  · rw [curationWorker_run_eq env d clipRowTable digestClipTable data out
      hllm hne hloop.1]
    exact ⟨_, rfl, rfl⟩
  · rw [curationWorker_run_eq env d clipRowTable digestClipTable data out
      hllm hne hloop.1]
    simpa [List.enum] using hloop.2
  · have : (sel.enum.map (fun p => DigestClipRow.mk data.digestId p.2 p.1)).map
        (fun r => r.order) = sel.enum.map Prod.fst := by
      rw [List.map_map]
      rfl
    rw [this, List.enum_map_fst]

/-- Witness for C6: the validation-fallback scenario (three valid ids plus
two bogus ones, filled back up to six from the top-scored rest). -/
theorem curationWorker_validation_spec_witness :
    (∃ res, (curationWorker c6Env (some c6Digest) c6Rows [] c6Data).result =
        .ok res ∧
      res.selectedClipIds = curationValidate
        (c6Data.targetClipCount.getD (6, 8)).1
        (curationCandidatesOf c6Rows c6Data.episodeIds)
        c6Out.selectedClipIds) ∧
    ((curationValidate (c6Data.targetClipCount.getD (6, 8)).1
        (curationCandidatesOf c6Rows c6Data.episodeIds)
        c6Out.selectedClipIds).enum.map
      (fun p => DigestClipRow.mk c6Data.digestId p.2 p.1)).map
        (fun r => r.order) =
      List.range (curationValidate (c6Data.targetClipCount.getD (6, 8)).1
        (curationCandidatesOf c6Rows c6Data.episodeIds)
        c6Out.selectedClipIds).length :=
  ⟨(curationWorker_validation_spec c6Env c6Digest c6Rows [] c6Data c6Out
      rfl (by decide) (by decide) (by decide)).2.2.2.2.1,
   (curationWorker_validation_spec c6Env c6Digest c6Rows [] c6Data c6Out
      rfl (by decide) (by decide) (by decide)).2.2.2.2.2.2⟩

/-- **C9, counterexample to the claim as stated.**  Two exceptions thrown
after the owning entity has been found do **not** set its status to
`failed`: the transcription worker's busy fast-fail (episode stays
`downloading`), and the digest worker's podcast-not-found error (both are
raised before the `try` block). -/
theorem worker_failure_status_counterexample :
    ((transcriptionWorker c2Env [] (some c9Episode)
      (TranscriptionJobData.mk "e9" "u")).episode.map Episode.status) =
      some .downloading ∧
    (transcriptionWorker c2Env [] (some c9Episode)
      (TranscriptionJobData.mk "e9" "u")).result =
      .error "Episode e9 is already being processed" ∧
    ((digestWorker c9DEnv [] (some c9Digest) none [] c9DData).digest.map
      Digest.status) = some .pending ∧
    (digestWorker c9DEnv [] (some c9Digest) none [] c9DData).result =
      .error "Podcast not found: p9" :=
  ⟨by decide, rfl, by decide, rfl⟩

/-- **C9** (corrected).  For each of the three stages, every exception
thrown inside the `try` block sets the owning entity's status to `failed`
(the last persisted update) and re-raises; but the fast-fail paths that run
after the entity lookup and before the `try` — the transcription busy
check and the assembly podcast lookup — re-raise without touching the
status. -/
theorem worker_failure_sets_failed :
    (∀ (env : TransEnv) (fs : FS) (ep : Episode)
      (data : TranscriptionJobData) (e : String),
      ep.status ≠ .downloading → ep.status ≠ .transcribing →
      (transcriptionWorker env fs (some ep) data).result = .error e →
      ((transcriptionWorker env fs (some ep) data).episode.map
        Episode.status) = some .failed ∧
      (transcriptionWorker env fs (some ep) data).effects.getLast? =
        some (TEff.updateStatus .failed)) ∧
    (∀ (env : CurEnv) (d : Digest) (rows : List ClipRow)
      (table : List DigestClipRow) (data : CurationJobData) (e : String),
      (curationWorker env (some d) rows table data).result = .error e →
      ((curationWorker env (some d) rows table data).digest.map
        Digest.status) = some .failed ∧
      (curationWorker env (some d) rows table data).effects.getLast? =
        some (CurEff.updateStatus .failed)) ∧
    (∀ (env : DigestEnv) (fs : FS) (d : Digest) (p : String)
      (joins : List DigestClipJoin) (data : DigestJobData) (e : String),
      (digestWorker env fs (some d) (some p) joins data).result = .error e →
      ((digestWorker env fs (some d) (some p) joins data).digest.map
        Digest.status) = some .failed ∧
      (digestWorker env fs (some d) (some p) joins data).effects.getLast? =
        some (DEff.updateStatus .failed)) := by
  refine ⟨?_, ?_, ?_⟩
  · intro env fs ep data e h1 h2 herr
    by_cases ht : ep.status = .transcribed
    · exfalso
      simp [transcriptionWorker, ht] at herr
    · have hbusy : ¬ (ep.status = .downloading ∨ ep.status = .transcribing) := by
        rintro (h | h)
        · exact h1 h
        · exact h2 h
      cases htry : transcriptionTry env fs ep data.episodeId with
      | mk res ep1 fs1 effs chunks =>
        cases res with
        | ok t =>
          exfalso
          simp [transcriptionWorker, ht, hbusy, htry] at herr
        | error e2 =>
          constructor
          · simp [transcriptionWorker, ht, hbusy, htry]
          · simp [transcriptionWorker, ht, hbusy, htry, List.getLast?_concat]
  · intro env d rows table data e herr
    cases htry : curationTry env d rows table data with
    | mk res d1 table1 effs =>
      cases res with
      | ok r =>
        exfalso
        simp [curationWorker, htry] at herr
      | error e2 =>
        constructor
        · simp [curationWorker, htry]
        · simp [curationWorker, htry, List.getLast?_concat]
  · intro env fs d p joins data e herr
    cases htry : digestTry env fs d
        (jsSortBy (fun a b => a.order ≤ b.order) joins) data with
    | mk res d1 fs1 effs =>
      cases res with
      | ok r =>
        exfalso
        simp [digestWorker, htry] at herr
      | error e2 =>
        constructor
        · simp [digestWorker, htry]
        · simp [digestWorker, htry, List.getLast?_concat]

/-- Witness for C9: a failing run of each stage ends with status `failed`. -/
theorem worker_failure_sets_failed_witness :
    (((transcriptionWorker c9wEnv [] (some { c9Episode with status := .pending })
        (TranscriptionJobData.mk "e9" "u")).episode.map Episode.status) =
      some .failed ∧
     (transcriptionWorker c9wEnv [] (some { c9Episode with status := .pending })
        (TranscriptionJobData.mk "e9" "u")).effects.getLast? =
      some (TEff.updateStatus .failed)) ∧
    (((curationWorker c4Env (some c9Digest) [] []
        (CurationJobData.mk "d9" "u" [] [] none none)).digest.map
        Digest.status) = some .failed ∧
     (curationWorker c4Env (some c9Digest) [] []
        (CurationJobData.mk "d9" "u" [] [] none none)).effects.getLast? =
      some (CurEff.updateStatus .failed)) ∧
    (((digestWorker c9DEnv [] (some c9Digest) (some "P") [] c9DData).digest.map
        Digest.status) = some .failed ∧
     (digestWorker c9DEnv [] (some c9Digest) (some "P") [] c9DData).effects.getLast? =
      some (DEff.updateStatus .failed)) :=
  ⟨worker_failure_sets_failed.1 c9wEnv [] { c9Episode with status := .pending }
      (TranscriptionJobData.mk "e9" "u") "network down"
      (by decide) (by decide) rfl,
   worker_failure_sets_failed.2.1 c4Env c9Digest [] []
      (CurationJobData.mk "d9" "u" [] [] none none)
      "No candidate clips found for the specified episodes" rfl,
   worker_failure_sets_failed.2.2 c9DEnv [] c9Digest "P" [] c9DData
      "llm failed" rfl⟩

end Sifter
